import Mathlib

/-!
# Verification of the BackgroundMaterial readiness / binding pipeline

A shallow embedding of `backgroundMaterial.ts` (the define-driven shader
variant pipeline of the repository): the `BackgroundMaterialDefines` data
model, `isReadyForSubMesh`, `bindForSubMesh`, `needAlphaBlending`, the
`fovMultiplier` accessor and the image-processing-configuration attachment,
together with theorems settling the frozen claims about them.

External collaborators that are not part of the sources (the
`MaterialDefines` dirty machinery, the `materialHelper` Prepare* functions,
`EffectFallbacks`, `PushMaterial` internals, the Observable used by the
image-processing configuration) are modelled from the specification; each
such definition is marked `Modelled from the spec:` in its doc comment.
-/

namespace Background

/-! ## JavaScript numbers (only where NaN / infinities matter) -/

/-- A JavaScript `number` restricted to the operations used by the
`fovMultiplier` accessor: it is either NaN, an infinity, or a finite value
(modelled as a rational). -/
inductive JsNum where
  | nan : JsNum
  | posInf : JsNum
  | negInf : JsNum
  | num : ℚ → JsNum
  deriving DecidableEq

/-- `Math.min` on JavaScript numbers: NaN propagates, otherwise the usual
minimum with the infinities as extremes. -/
def jsMin : JsNum → JsNum → JsNum
  | .nan, _ => .nan
  | _, .nan => .nan
  | .negInf, _ => .negInf
  | _, .negInf => .negInf
  | .posInf, b => b
  | a, .posInf => a
  | .num a, .num b => .num (min a b)

/-- `Math.max` on JavaScript numbers: NaN propagates, otherwise the usual
maximum with the infinities as extremes. -/
def jsMax : JsNum → JsNum → JsNum
  | .nan, _ => .nan
  | _, .nan => .nan
  | .posInf, _ => .posInf
  | _, .posInf => .posInf
  | .negInf, b => b
  | a, .negInf => a
  | .num a, .num b => .num (max a b)

/-- `isNaN` on a JavaScript number. -/
def JsNum.isNaN : JsNum → Bool
  | .nan => true
  | _ => false

/-- The `fovMultiplier` setter of `BackgroundMaterial`
(`src/unnamed/part_000` lines 428-433): a NaN input is replaced by the
default `1.0`, then the value is clamped by
`Math.max(0.0, Math.min(2.0, value))`. -/
def setFovMultiplier (value : JsNum) : JsNum :=
  let value := if value.isNaN then JsNum.num 1 else value
  jsMax (.num 0) (jsMin (.num 2) value)

/-- The initial value of the private `_fovMultiplier` field. -/
def initFovMultiplier : JsNum := .num 1

/-! ## needAlphaBlending (C10) -/

/-- The read-only texture interface consumed by the material
(readiness, alpha, colour-space and coordinate-mode information). -/
structure TextureState where
  isReadyOrNotBlocking : Bool
  hasAlpha : Bool
  gammaSpace : Bool
  isRGBD : Bool
  lodLevelInAlpha : Bool
  isCube : Bool
  invertZ : Bool
  coordinatesMode : Nat
  /-- The UV-set ordinal the `PrepareDefinesForMergedUV` helper derives for
  this texture (0 when the texture goes through a transform matrix). -/
  directUV : Nat
  deriving DecidableEq

/-- The image-processing define values an `ImageProcessingConfiguration`
writes into a define set. Modelled from the spec: the configuration
"exposes `isReady()`, `prepareDefines(defines)`"; `prepareDefines` (not in
src) fills the image-processing block of the define set from the
configuration's own state, captured here as the values it would write. -/
structure IpDefines where
  IMAGEPROCESSING : Bool
  VIGNETTE : Bool
  VIGNETTEBLENDMODEMULTIPLY : Bool
  VIGNETTEBLENDMODEOPAQUE : Bool
  TONEMAPPING : Nat
  CONTRAST : Bool
  COLORCURVES : Bool
  COLORGRADING : Bool
  COLORGRADING3D : Bool
  SAMPLER3DGREENDEPTH : Bool
  SAMPLER3DBGRMAP : Bool
  DITHER : Bool
  IMAGEPROCESSINGPOSTPROCESS : Bool
  SKIPFINALCOLORCLAMP : Bool
  EXPOSURE : Bool
  deriving DecidableEq

/-- The read-only interface of the attached image-processing
configuration: its readiness and the defines it prepares. -/
structure IpConfigState where
  isReady : Bool
  defines : IpDefines
  deriving DecidableEq

/-- The fields of `BackgroundMaterial` (plus the inherited `Material`
scalars it reads) that the embedded operations consume. -/
structure BackgroundMaterialState where
  isFrozen : Bool
  checkReadyOnEveryCall : Bool
  alpha : ℚ
  alphaMode : Nat
  shadowOnly : Bool
  useRGBColor : Bool
  enableNoise : Bool
  opacityFresnel : Bool
  reflectionFresnel : Bool
  reflectionFalloffDistance : ℚ
  reflectionBlur : ℚ
  diffuseTexture : Option TextureState
  reflectionTexture : Option TextureState
  primaryColorShadowLevel : ℚ
  primaryColorHighlightLevel : ℚ
  maxSimultaneousLights : Nat
  enableGroundProjection : Bool
  useEquirectangularFOV : Bool
  switchToBGR : Bool
  useLogarithmicDepth : Bool
  pointsCloud : Bool
  fogEnabled : Bool
  imageProcessing : Option IpConfigState
  shadowLevel : ℚ
  deriving DecidableEq

/-- `BackgroundMaterial.needAlphaBlending` (`src/unnamed/part_000` lines
711-713): `this.alpha < 1 || (this._diffuseTexture != null &&
this._diffuseTexture.hasAlpha) || this._shadowOnly`. -/
def needAlphaBlending (m : BackgroundMaterialState) : Bool :=
  decide (m.alpha < 1) ||
    (match m.diffuseTexture with
      | some t => t.hasAlpha
      | none => false) ||
    m.shadowOnly

/-! ## Image-processing configuration attachment (C8)

`_attachImageProcessingConfiguration` (`src/unnamed/part_000` lines
472-496) and the observer removal in `dispose` (lines 1308-1310).
Configurations are identified by numbers; the Observable `add`/`remove`
registration (not in the sources) is modelled from the spec as a list of
`(configuration, observer)` registrations held by this material. -/

/-- The observer-related state of one material: the currently attached
configuration (`none` models the initial `undefined`), the stored observer
handle, the material's live registrations on configurations, and a counter
producing fresh observer handles. -/
structure IpcState where
  config : Option Nat
  observer : Option Nat
  regs : List (Nat × Nat)
  nextId : Nat
  deriving DecidableEq

/-- The state of the material right after field initialisation, before the
constructor runs `_attachImageProcessingConfiguration(null)`. -/
def initIpcState : IpcState := ⟨none, none, [], 0⟩

/-- Modelled from the spec: `Observable.remove` unsubscribes one observer,
so removal deletes the matching `(configuration, observer)` registration. -/
def removeRegistration (regs : List (Nat × Nat)) (c o : Nat) : List (Nat × Nat) :=
  regs.filter (fun p => !(p.1 == c && p.2 == o))

/-- `BackgroundMaterial._attachImageProcessingConfiguration`
(`src/unnamed/part_000` lines 472-496): if the configuration is already the
attached one, return unchanged (JS `===`, which is false between `null` and
`undefined`, hence the `some`/`some` comparison); otherwise detach the
observer from the previous configuration (when both are present), fall back
to the scene configuration when the argument is `null`, and register a new
observer on the chosen configuration. -/
def attachImageProcessingConfiguration (st : IpcState) (cfg : Option Nat)
    (sceneCfg : Nat) : IpcState :=
  if (match cfg, st.config with
      | some a, some b => a == b
      | _, _ => false) then
    st
  else
    let regs := match st.config, st.observer with
      | some c, some o => removeRegistration st.regs c o
      | _, _ => st.regs
    let newCfg := cfg.getD sceneCfg
    { config := some newCfg
      observer := some st.nextId
      regs := regs ++ [(newCfg, st.nextId)]
      nextId := st.nextId + 1 }

/-- The observer removal performed by `BackgroundMaterial.dispose`
(`src/unnamed/part_000` lines 1308-1310): remove the observer from the
attached configuration when both are present. -/
def disposeIpc (st : IpcState) : IpcState :=
  match st.config, st.observer with
  | some c, some o => { st with regs := removeRegistration st.regs c o }
  | _, _ => st

/-- One step in a sequence of attachment-related operations: an attach (via
the constructor or the `imageProcessingConfiguration` setter, with the
scene configuration supplied for the `null` case) or a dispose. -/
inductive IpcOp where
  | attach (cfg : Option Nat) (sceneCfg : Nat)
  | dispose
  deriving DecidableEq

/-- Run one operation. -/
def IpcOp.run (st : IpcState) : IpcOp → IpcState
  | .attach cfg sceneCfg => attachImageProcessingConfiguration st cfg sceneCfg
  | .dispose => disposeIpc st

/-- Run a sequence of operations from the initial state. -/
def runIpcOps (ops : List IpcOp) : IpcState :=
  ops.foldl IpcOp.run initIpcState

/-- The coupling invariant: the material's registrations are exactly the
singleton formed from its stored configuration and observer handle, or
empty; in particular there is at most one registration, and fresh handles
stay above all stored ones. -/
def IpcInv (st : IpcState) : Prop :=
  (st.regs = [] ∨ ∃ c o, st.config = some c ∧ st.observer = some o ∧
    st.regs = [(c, o)]) ∧
  (∀ o, st.observer = some o → o < st.nextId)

/-! ## Texture coordinate modes and alpha modes

Modelled from the spec / the engine's public enum ordinals (the `Texture`
and `Constants` statics are not in src); only their distinctness matters to
the embedded switch. -/

def EXPLICIT_MODE : Nat := 0
def SPHERICAL_MODE : Nat := 1
def PLANAR_MODE : Nat := 2
def CUBIC_MODE : Nat := 3
def PROJECTION_MODE : Nat := 4
def SKYBOX_MODE : Nat := 5
def INVCUBIC_MODE : Nat := 6
def EQUIRECTANGULAR_MODE : Nat := 7
def FIXED_EQUIRECTANGULAR_MODE : Nat := 8
def FIXED_EQUIRECTANGULAR_MIRRORED_MODE : Nat := 9

def ALPHA_PREMULTIPLIED : Nat := 7
def ALPHA_PREMULTIPLIED_PORTERDUFF : Nat := 8

/-! ## The define set -/

/-- The public define values of `BackgroundMaterialDefines`
(`src/unnamed/part_000` lines 55-203), initialised as in the class body.
The dynamically added per-light defines (`LIGHTi`/`SHADOWi`, written by the
external `PrepareDefinesForLights`) are modelled by the `lights` list,
whose entry `i` records whether light `i` is active. Per the spec the
serialized key is an injective, order-stable function of these values, so
the record itself stands for the key. -/
structure BackgroundDefineValues where
  DIFFUSE : Bool := false
  DIFFUSEDIRECTUV : Nat := 0
  GAMMADIFFUSE : Bool := false
  DIFFUSEHASALPHA : Bool := false
  OPACITYFRESNEL : Bool := false
  REFLECTIONBLUR : Bool := false
  REFLECTIONFRESNEL : Bool := false
  REFLECTIONFALLOFF : Bool := false
  TEXTURELODSUPPORT : Bool := false
  PREMULTIPLYALPHA : Bool := false
  USERGBCOLOR : Bool := false
  USEHIGHLIGHTANDSHADOWCOLORS : Bool := false
  BACKMAT_SHADOWONLY : Bool := false
  NOISE : Bool := false
  REFLECTIONBGR : Bool := false
  PROJECTED_GROUND : Bool := false
  IMAGEPROCESSING : Bool := false
  VIGNETTE : Bool := false
  VIGNETTEBLENDMODEMULTIPLY : Bool := false
  VIGNETTEBLENDMODEOPAQUE : Bool := false
  TONEMAPPING : Nat := 0
  CONTRAST : Bool := false
  COLORCURVES : Bool := false
  COLORGRADING : Bool := false
  COLORGRADING3D : Bool := false
  SAMPLER3DGREENDEPTH : Bool := false
  SAMPLER3DBGRMAP : Bool := false
  DITHER : Bool := false
  IMAGEPROCESSINGPOSTPROCESS : Bool := false
  SKIPFINALCOLORCLAMP : Bool := false
  EXPOSURE : Bool := false
  MULTIVIEW : Bool := false
  REFLECTION : Bool := false
  REFLECTIONMAP_3D : Bool := false
  REFLECTIONMAP_SPHERICAL : Bool := false
  REFLECTIONMAP_PLANAR : Bool := false
  REFLECTIONMAP_CUBIC : Bool := false
  REFLECTIONMAP_PROJECTION : Bool := false
  REFLECTIONMAP_SKYBOX : Bool := false
  REFLECTIONMAP_EXPLICIT : Bool := false
  REFLECTIONMAP_EQUIRECTANGULAR : Bool := false
  REFLECTIONMAP_EQUIRECTANGULAR_FIXED : Bool := false
  REFLECTIONMAP_MIRROREDEQUIRECTANGULAR_FIXED : Bool := false
  INVERTCUBICMAP : Bool := false
  REFLECTIONMAP_OPPOSITEZ : Bool := false
  LODINREFLECTIONALPHA : Bool := false
  GAMMAREFLECTION : Bool := false
  RGBDREFLECTION : Bool := false
  EQUIRECTANGULAR_RELFECTION_FOV : Bool := false
  MAINUV1 : Bool := false
  MAINUV2 : Bool := false
  UV1 : Bool := false
  UV2 : Bool := false
  CLIPPLANE : Bool := false
  CLIPPLANE2 : Bool := false
  CLIPPLANE3 : Bool := false
  CLIPPLANE4 : Bool := false
  CLIPPLANE5 : Bool := false
  CLIPPLANE6 : Bool := false
  POINTSIZE : Bool := false
  FOG : Bool := false
  NORMAL : Bool := false
  NUM_BONE_INFLUENCERS : Nat := 0
  BonesPerMesh : Nat := 0
  INSTANCES : Bool := false
  SHADOWFLOAT : Bool := false
  LOGARITHMICDEPTH : Bool := false
  NONUNIFORMSCALING : Bool := false
  ALPHATEST : Bool := false
  lights : List Bool := []
  deriving DecidableEq

/-- A `BackgroundMaterialDefines` instance: the define values together
with the bookkeeping of the `MaterialDefines` base class. Modelled from
the spec (§4.1): four independent dirty partitions (plus the attributes
partition the implementation also tracks), an `isDirty`/`isProcessed`
flag, the render id at which the defines were last validated, and the
`_needUVs`/`_needNormals` scratch flags the sources use. A freshly
constructed instance is fully dirty and unprocessed. -/
structure BackgroundMaterialDefines where
  values : BackgroundDefineValues := {}
  isDirtyFlag : Bool := true
  areTexturesDirty : Bool := true
  areLightsDirty : Bool := true
  areMiscDirty : Bool := true
  areImageProcessingDirty : Bool := true
  areAttributesDirty : Bool := true
  renderId : Int := -1
  needUVs : Bool := false
  needNormals : Bool := false
  deriving DecidableEq

/-- `new BackgroundMaterialDefines()`. -/
def newBackgroundMaterialDefines : BackgroundMaterialDefines := {}

/-- Modelled from the spec: `MaterialDefines.markAsProcessed` (not in src)
clears the dirty flag and every partition flag after the define set has
been recomputed and the cache consulted. -/
def markAsProcessed (d : BackgroundMaterialDefines) : BackgroundMaterialDefines :=
  { d with
    isDirtyFlag := false
    areTexturesDirty := false
    areLightsDirty := false
    areMiscDirty := false
    areImageProcessingDirty := false
    areAttributesDirty := false }

/-- Modelled from the spec: `MaterialDefines.markAsUnprocessed` (not in
src) re-flags the define set as dirty so the key is re-serialized and the
cache re-consulted. -/
def markAsUnprocessed (d : BackgroundMaterialDefines) : BackgroundMaterialDefines :=
  { d with isDirtyFlag := true }

/-- Modelled from the spec: the effect of
`_markAllSubMeshesAsTexturesDirty` on one submesh's define set — the
textures partition flag is raised and the set is marked unprocessed. -/
def markTexturesDirty (d : BackgroundMaterialDefines) : BackgroundMaterialDefines :=
  { d with areTexturesDirty := true, isDirtyFlag := true }

/-- Modelled from the spec: the effect of `_markAllSubMeshesAsLightsDirty`
on one submesh's define set. -/
def markLightsDirty (d : BackgroundMaterialDefines) : BackgroundMaterialDefines :=
  { d with areLightsDirty := true, isDirtyFlag := true }

/-- Modelled from the spec: the effect of `_markAllSubMeshesAsMiscDirty`
on one submesh's define set. -/
def markMiscDirty (d : BackgroundMaterialDefines) : BackgroundMaterialDefines :=
  { d with areMiscDirty := true, isDirtyFlag := true }

/-! ## Scene, mesh and submesh state -/

/-- The scene/engine inputs `isReadyForSubMesh` reads. `lights` lists the
active lights; `newEffectIsReady` tells whether an effect created this
frame immediately reports ready (synchronous compile). -/
structure SceneState where
  texturesEnabled : Bool
  diffuseTextureEnabled : Bool
  reflectionTextureEnabled : Bool
  capsTextureLOD : Bool
  useRightHandedSystem : Bool
  renderId : Int
  multiview : Bool
  lights : List Bool
  fogActive : Bool
  newEffectIsReady : Bool
  deriving DecidableEq

/-- The mesh-derived inputs consumed by the external Prepare* helpers. -/
structure MeshInputs where
  hasNormals : Bool
  hasUV1 : Bool
  hasUV2 : Bool
  nonUniformScaling : Bool
  applyFog : Bool
  alphaTest : Bool
  numBoneInfluencers : Nat
  bonesPerMesh : Nat
  deriving DecidableEq

/-- A compiled (or compiling) effect held by the submesh's draw wrapper. -/
structure EffectState where
  ready : Bool
  key : BackgroundDefineValues
  deriving DecidableEq

/-- The submesh's draw wrapper: the effect and the fast-path flags cached
by the previous successful readiness check. -/
structure DrawWrapperState where
  effect : Option EffectState
  wasPreviouslyReady : Bool
  wasPreviouslyUsingInstances : Option Bool
  forceRebindOnNextCall : Bool
  deriving DecidableEq

/-- The per-submesh state `isReadyForSubMesh` reads and writes. -/
structure SubMeshState where
  materialDefines : Option BackgroundMaterialDefines
  drawWrapper : DrawWrapperState
  deriving DecidableEq

/-! ## Events instrumentation -/

/-- Where a run of `isReadyForSubMesh` left the function. -/
inductive ReadyExit where
  | frozenFastPath
  | cachedReady
  | diffuseNotReady
  | reflectionNotReady
  | imageProcessingNotReady
  | effectNotReady
  | completed
  deriving DecidableEq

/-- The list of features registered with the `EffectFallbacks` object of
one compile request. -/
inductive FallbackItem where
  | fog
  | pointsize
  | multiview
  | light : Nat → FallbackItem
  deriving DecidableEq

/-- One compile request issued to `engine.createEffect`: the serialized
define key and the fallback list passed along. -/
structure CompileRequest where
  key : BackgroundDefineValues
  fallbacks : List (Nat × FallbackItem)
  deriving DecidableEq

/-- Observable events of one `isReadyForSubMesh` run: which dirty blocks
executed, the compile requests issued, and the exit point. -/
structure ReadyEvents where
  texturesRecomputed : Bool := false
  lightsRecomputed : Bool := false
  ipRecomputed : Bool := false
  miscRecomputed : Bool := false
  compiles : List CompileRequest := []
  exit : ReadyExit
  deriving DecidableEq

/-- The outcome of one `isReadyForSubMesh` run. -/
structure ReadyResult where
  ready : Bool
  sub : SubMeshState
  events : ReadyEvents
  deriving DecidableEq

/-! ## External Prepare* helpers (modelled from the spec) -/

/-- Modelled from the spec: `PrepareDefinesForLights` (materialHelper, not
in src) refreshes the per-light defines from the scene's light collection,
bounded by `maxSimultaneousLights`, when the lights partition is dirty
("recompute(partition, inputs) is called only when that partition is
dirty"). -/
def prepareDefinesForLights (scene : SceneState) (m : BackgroundMaterialState)
    (d : BackgroundMaterialDefines) : BackgroundMaterialDefines :=
  if d.areLightsDirty then
    { d with values := { d.values with
        lights := scene.lights.take m.maxSimultaneousLights } }
  else d

/-- Modelled from the spec: `PrepareDefinesForMultiview` (not in src)
writes the MULTIVIEW define from the active camera each call and marks the
set unprocessed when the value changed. -/
def prepareDefinesForMultiview (scene : SceneState)
    (d : BackgroundMaterialDefines) : BackgroundMaterialDefines :=
  if d.values.MULTIVIEW == scene.multiview then d
  else markAsUnprocessed { d with values := { d.values with MULTIVIEW := scene.multiview } }

/-- Modelled from the spec: `PrepareDefinesForMergedUV` (not in src), for
the "DIFFUSE" key — raises the DIFFUSE define, records the texture's
direct-UV channel and the main UV set in use, and notes that UVs are
needed. -/
def prepareDefinesForMergedUV (tex : TextureState)
    (d : BackgroundMaterialDefines) : BackgroundMaterialDefines :=
  { d with
    needUVs := true
    values := { d.values with
      DIFFUSE := true
      DIFFUSEDIRECTUV := tex.directUV
      MAINUV1 := d.values.MAINUV1 || tex.directUV == 1
      MAINUV2 := d.values.MAINUV2 || tex.directUV == 2 } }

/-- Modelled from the spec: `PrepareDefinesForMisc` (not in src) writes
the misc-partition defines (log depth, point size, fog, non-uniform
scaling, alpha test) from the material, scene and mesh when that partition
is dirty. -/
def prepareDefinesForMisc (m : BackgroundMaterialState) (scene : SceneState)
    (mesh : MeshInputs) (d : BackgroundMaterialDefines) : BackgroundMaterialDefines :=
  if d.areMiscDirty then
    { d with values := { d.values with
        LOGARITHMICDEPTH := m.useLogarithmicDepth
        POINTSIZE := m.pointsCloud
        FOG := scene.fogActive && mesh.applyFog && m.fogEnabled
        NONUNIFORMSCALING := mesh.nonUniformScaling
        ALPHATEST := mesh.alphaTest } }
  else d

/-- Modelled from the spec: `PrepareDefinesForFrameBoundValues` (not in
src) refreshes the per-frame defines — here the instancing flag — and
marks the set unprocessed when a value changed. (Clip-plane and
thin-instance bookkeeping, constant in the claims' scenarios, is
omitted.) -/
def prepareDefinesForFrameBoundValues (useInstances : Bool)
    (d : BackgroundMaterialDefines) : BackgroundMaterialDefines :=
  if d.values.INSTANCES == useInstances then d
  else markAsUnprocessed { d with values := { d.values with INSTANCES := useInstances } }

/-- Modelled from the spec: `PrepareDefinesForAttributes` (not in src)
derives the attribute defines from the mesh's vertex data and the
`_needNormals`/`_needUVs` scratch flags when the attributes partition is
dirty. -/
def prepareDefinesForAttributes (mesh : MeshInputs)
    (d : BackgroundMaterialDefines) : BackgroundMaterialDefines :=
  if d.areAttributesDirty then
    { d with values := { d.values with
        NORMAL := mesh.hasNormals && d.needNormals
        UV1 := mesh.hasUV1 && d.needUVs
        UV2 := mesh.hasUV2 && d.needUVs
        NUM_BONE_INFLUENCERS := mesh.numBoneInfluencers
        BonesPerMesh := mesh.bonesPerMesh } }
  else d

/-- Modelled from the spec: `ImageProcessingConfiguration.prepareDefines`
(not in src) writes the image-processing block of the define set from the
configuration. -/
def ipPrepareDefines (ip : IpConfigState)
    (d : BackgroundMaterialDefines) : BackgroundMaterialDefines :=
  { d with values := { d.values with
      IMAGEPROCESSING := ip.defines.IMAGEPROCESSING
      VIGNETTE := ip.defines.VIGNETTE
      VIGNETTEBLENDMODEMULTIPLY := ip.defines.VIGNETTEBLENDMODEMULTIPLY
      VIGNETTEBLENDMODEOPAQUE := ip.defines.VIGNETTEBLENDMODEOPAQUE
      TONEMAPPING := ip.defines.TONEMAPPING
      CONTRAST := ip.defines.CONTRAST
      COLORCURVES := ip.defines.COLORCURVES
      COLORGRADING := ip.defines.COLORGRADING
      COLORGRADING3D := ip.defines.COLORGRADING3D
      SAMPLER3DGREENDEPTH := ip.defines.SAMPLER3DGREENDEPTH
      SAMPLER3DBGRMAP := ip.defines.SAMPLER3DBGRMAP
      DITHER := ip.defines.DITHER
      IMAGEPROCESSINGPOSTPROCESS := ip.defines.IMAGEPROCESSINGPOSTPROCESS
      SKIPFINALCOLORCLAMP := ip.defines.SKIPFINALCOLORCLAMP
      EXPOSURE := ip.defines.EXPOSURE } }

/-! ## The dirty-partition blocks of isReadyForSubMesh (from src) -/

/-- The reset branch of the diffuse part (`src/unnamed/part_000` lines
768-774): no active diffuse texture clears the diffuse defines. -/
def diffuseReset (d : BackgroundMaterialDefines) : BackgroundMaterialDefines :=
  { d with values := { d.values with
      DIFFUSE := false
      DIFFUSEDIRECTUV := 0
      DIFFUSEHASALPHA := false
      GAMMADIFFUSE := false
      OPACITYFRESNEL := false } }

/-- The diffuse-texture part of the textures block
(`src/unnamed/part_000` lines 759-774). `.error` is the early
`return false` when the diffuse texture is not ready. -/
def diffuseBlock (m : BackgroundMaterialState) (scene : SceneState)
    (d : BackgroundMaterialDefines) :
    Except BackgroundMaterialDefines BackgroundMaterialDefines :=
  match m.diffuseTexture with
  | some dt =>
    if scene.diffuseTextureEnabled then
      if !dt.isReadyOrNotBlocking then .error d
      else
        let d := prepareDefinesForMergedUV dt d
        .ok { d with values := { d.values with
          DIFFUSEHASALPHA := dt.hasAlpha
          GAMMADIFFUSE := dt.gammaSpace
          OPACITYFRESNEL := m.opacityFresnel } }
    else .ok (diffuseReset d)
  | none => .ok (diffuseReset d)

/-- The reflection coordinates-mode switch (`src/unnamed/part_000` lines
797-827): sets exactly the define of the current mode to true — the other
submode defines are left as they are. -/
def reflectionSubmodeSwitch (mode : Nat) (v : BackgroundDefineValues) :
    BackgroundDefineValues :=
  if mode == EXPLICIT_MODE then { v with REFLECTIONMAP_EXPLICIT := true }
  else if mode == PLANAR_MODE then { v with REFLECTIONMAP_PLANAR := true }
  else if mode == PROJECTION_MODE then { v with REFLECTIONMAP_PROJECTION := true }
  else if mode == SKYBOX_MODE then { v with REFLECTIONMAP_SKYBOX := true }
  else if mode == SPHERICAL_MODE then { v with REFLECTIONMAP_SPHERICAL := true }
  else if mode == EQUIRECTANGULAR_MODE then { v with REFLECTIONMAP_EQUIRECTANGULAR := true }
  else if mode == FIXED_EQUIRECTANGULAR_MODE then { v with REFLECTIONMAP_EQUIRECTANGULAR_FIXED := true }
  else if mode == FIXED_EQUIRECTANGULAR_MIRRORED_MODE then { v with REFLECTIONMAP_MIRROREDEQUIRECTANGULAR_FIXED := true }
  else { v with REFLECTIONMAP_CUBIC := true }

/-- The reset branch of the reflection part (`src/unnamed/part_000` lines
841-861): no active reflection texture clears every reflection define. -/
def reflectionReset (d : BackgroundMaterialDefines) : BackgroundMaterialDefines :=
  { d with values := { d.values with
      REFLECTION := false
      REFLECTIONFRESNEL := false
      REFLECTIONFALLOFF := false
      REFLECTIONBLUR := false
      REFLECTIONMAP_3D := false
      REFLECTIONMAP_SPHERICAL := false
      REFLECTIONMAP_PLANAR := false
      REFLECTIONMAP_CUBIC := false
      REFLECTIONMAP_PROJECTION := false
      REFLECTIONMAP_SKYBOX := false
      REFLECTIONMAP_EXPLICIT := false
      REFLECTIONMAP_EQUIRECTANGULAR := false
      REFLECTIONMAP_EQUIRECTANGULAR_FIXED := false
      REFLECTIONMAP_MIRROREDEQUIRECTANGULAR_FIXED := false
      INVERTCUBICMAP := false
      REFLECTIONMAP_OPPOSITEZ := false
      LODINREFLECTIONALPHA := false
      GAMMAREFLECTION := false
      RGBDREFLECTION := false } }

/-- The reflection-texture part of the textures block
(`src/unnamed/part_000` lines 776-861). `.error` is the early
`return false` when the reflection texture is not ready. -/
def reflectionBlock (m : BackgroundMaterialState) (scene : SceneState)
    (d : BackgroundMaterialDefines) :
    Except BackgroundMaterialDefines BackgroundMaterialDefines :=
  match m.reflectionTexture with
  | some rt =>
    if scene.reflectionTextureEnabled then
      if !rt.isReadyOrNotBlocking then .error d
      else
        let v := d.values
        let v := { v with
          REFLECTION := true
          GAMMAREFLECTION := rt.gammaSpace
          RGBDREFLECTION := rt.isRGBD
          REFLECTIONBLUR := decide (m.reflectionBlur > 0)
          LODINREFLECTIONALPHA := rt.lodLevelInAlpha
          EQUIRECTANGULAR_RELFECTION_FOV := m.useEquirectangularFOV
          REFLECTIONBGR := m.switchToBGR }
        let v := if rt.coordinatesMode == INVCUBIC_MODE then
            { v with INVERTCUBICMAP := true } else v
        let v := { v with REFLECTIONMAP_3D := rt.isCube }
        let v := { v with REFLECTIONMAP_OPPOSITEZ :=
          if v.REFLECTIONMAP_3D && scene.useRightHandedSystem then !rt.invertZ
          else rt.invertZ }
        let v := reflectionSubmodeSwitch rt.coordinatesMode v
        let v := if m.reflectionFresnel then
            { v with
              REFLECTIONFRESNEL := true
              REFLECTIONFALLOFF := decide (m.reflectionFalloffDistance > 0) }
          else { v with REFLECTIONFRESNEL := false, REFLECTIONFALLOFF := false }
        .ok { d with values := v }
    else .ok (reflectionReset d)
  | none => .ok (reflectionReset d)

/-- The tail of the textures block (`src/unnamed/part_000` lines 864-866):
premultiplied alpha, RGB-colour mode and noise, written whenever the
textures partition is dirty. -/
def texturesTail (m : BackgroundMaterialState)
    (d : BackgroundMaterialDefines) : BackgroundMaterialDefines :=
  { d with values := { d.values with
      PREMULTIPLYALPHA :=
        m.alphaMode == ALPHA_PREMULTIPLIED || m.alphaMode == ALPHA_PREMULTIPLIED_PORTERDUFF
      USERGBCOLOR := m.useRGBColor
      NOISE := m.enableNoise } }

/-- The texture-LOD capability write (`src/unnamed/part_000` lines
755-757). -/
def lodApply (scene : SceneState) (d : BackgroundMaterialDefines) :
    BackgroundMaterialDefines :=
  if scene.capsTextureLOD then
    { d with values := { d.values with TEXTURELODSUPPORT := true } }
  else d

/-- The textures-enabled core of the textures block: the diffuse part,
then the reflection part, then the tail. -/
def texturesCore (m : BackgroundMaterialState) (scene : SceneState)
    (d : BackgroundMaterialDefines) :
    Except (Bool × BackgroundMaterialDefines) BackgroundMaterialDefines :=
  match diffuseBlock m scene d with
  | .error d => .error (false, d)
  | .ok d =>
    match reflectionBlock m scene d with
    | .error d => .error (true, d)
    | .ok d => .ok (texturesTail m d)

/-- The textures block of `isReadyForSubMesh` (`src/unnamed/part_000`
lines 752-867), run when the textures partition is dirty. The `.error`
result is the early `return false` of an unready texture, with the define
set as mutated so far (the sources mutate the submesh's define object in
place). The `Bool` of the `.error` distinguishes the diffuse (false) from
the reflection (true) bail-out. -/
def texturesBlock (m : BackgroundMaterialState) (scene : SceneState)
    (d : BackgroundMaterialDefines) :
    Except (Bool × BackgroundMaterialDefines) BackgroundMaterialDefines :=
  if d.areTexturesDirty then
    let d := { d with needUVs := false }
    if scene.texturesEnabled then texturesCore m scene (lodApply scene d)
    else .ok (texturesTail m d)
  else .ok d

/-- The lights-dirty block (`src/unnamed/part_000` lines 869-872). -/
def lightsDirtyBlock (m : BackgroundMaterialState)
    (d : BackgroundMaterialDefines) : BackgroundMaterialDefines :=
  if d.areLightsDirty then
    { d with values := { d.values with
        USEHIGHLIGHTANDSHADOWCOLORS := !m.useRGBColor &&
          (decide (m.primaryColorShadowLevel ≠ 0) ||
            decide (m.primaryColorHighlightLevel ≠ 0))
        BACKMAT_SHADOWONLY := m.shadowOnly } }
  else d

/-- The image-processing block (`src/unnamed/part_000` lines 874-880):
when that partition is dirty and a configuration is attached, an unready
configuration aborts with `false`; otherwise the configuration prepares
its defines. -/
def imageProcessingBlock (m : BackgroundMaterialState)
    (d : BackgroundMaterialDefines) :
    Except BackgroundMaterialDefines BackgroundMaterialDefines :=
  if d.areImageProcessingDirty then
    match m.imageProcessing with
    | some ip =>
      if !ip.isReady then .error d
      else .ok (ipPrepareDefines ip d)
    | none => .ok d
  else .ok d

/-- The misc-dirty block (`src/unnamed/part_000` lines 882-889): ground
projection forces the skybox submode. -/
def miscDirtyBlock (m : BackgroundMaterialState)
    (d : BackgroundMaterialDefines) : BackgroundMaterialDefines :=
  if d.areMiscDirty then
    if d.values.REFLECTIONMAP_3D && m.enableGroundProjection then
      { d with values := { d.values with
          PROJECTED_GROUND := true
          REFLECTIONMAP_SKYBOX := true } }
    else
      { d with values := { d.values with PROJECTED_GROUND := false } }
  else d

/-! ## Fallbacks (src lines 912-926) -/

/-- Modelled from the spec: `HandleFallbacksForShadows` (not in src)
registers the shadow-casting lights so they are disabled from the least
impactful light index first — light `i` (for `i ≥ 1`; the first light is
never dropped) is registered at priority `i`. -/
def handleFallbacksForShadows (v : BackgroundDefineValues) :
    List (Nat × FallbackItem) :=
  (List.range v.lights.length).filterMap fun i =>
    if 0 < i then some (i, FallbackItem.light i) else none

/-- The fallback list built by `isReadyForSubMesh`
(`src/unnamed/part_000` lines 912-926): FOG at priority 0, POINTSIZE at
priority 1, MULTIVIEW at priority 0, then the shadow-casting lights. -/
def buildFallbacks (v : BackgroundDefineValues) : List (Nat × FallbackItem) :=
  (if v.FOG then [(0, FallbackItem.fog)] else []) ++
  (if v.POINTSIZE then [(1, FallbackItem.pointsize)] else []) ++
  (if v.MULTIVIEW then [(0, FallbackItem.multiview)] else []) ++
  handleFallbacksForShadows v

/-- Modelled from the spec: `EffectFallbacks.reduce` (not in src) disables
registered features in ascending priority order — the disable order is the
fallback list stably sorted by priority. -/
def fallbackInsert (x : Nat × FallbackItem) :
    List (Nat × FallbackItem) → List (Nat × FallbackItem)
  | [] => [x]
  | y :: ys => if y.1 < x.1 then y :: fallbackInsert x ys else x :: y :: ys

/-- The order in which the backend would disable the registered features:
stable sort of the fallback list by ascending priority. -/
def disableOrder (l : List (Nat × FallbackItem)) : List FallbackItem :=
  (l.foldr fallbackInsert []).map Prod.snd

/-! ## isReadyForSubMesh (src lines 722-1038) -/

/-- The tail of `isReadyForSubMesh` after the image-processing block
(`src/unnamed/part_000` lines 882-1038): the misc-dirty block, the
unconditional misc / frame-bound / attributes helpers, the compile request
under `defines.isDirty` (with `markAsProcessed`, the built fallback list
and the new effect stored on the draw wrapper), the final effect-readiness
check, and on success the render-id and fast-path bookkeeping. -/
def finishReady (m : BackgroundMaterialState) (scene : SceneState)
    (mesh : MeshInputs) (dw : DrawWrapperState) (useInstances : Bool)
    (evTex evLights evIp : Bool) (d3 : BackgroundMaterialDefines) : ReadyResult :=
  let evMisc := d3.areMiscDirty
  let d4 := miscDirtyBlock m d3
  let d5 := prepareDefinesForMisc m scene mesh d4
  let d6 := prepareDefinesForFrameBoundValues useInstances d5
  let d7 := prepareDefinesForAttributes mesh d6
  let d8 := if d7.isDirtyFlag then markAsProcessed d7 else d7
  let dw1 := if d7.isDirtyFlag then
      { dw with effect := some { ready := scene.newEffectIsReady, key := d7.values } }
    else dw
  let reqs : List CompileRequest := if d7.isDirtyFlag then
      [{ key := d7.values, fallbacks := buildFallbacks d7.values }]
    else []
  let ev : ReadyEvents :=
    { texturesRecomputed := evTex, lightsRecomputed := evLights
      ipRecomputed := evIp, miscRecomputed := evMisc
      compiles := reqs, exit := .completed }
  match dw1.effect with
  | none =>
    { ready := false
      sub := { materialDefines := some d8, drawWrapper := dw1 }
      events := { ev with exit := .effectNotReady } }
  | some eff =>
    if !eff.ready then
      { ready := false
        sub := { materialDefines := some d8, drawWrapper := dw1 }
        events := { ev with exit := .effectNotReady } }
    else
      { ready := true
        sub := { materialDefines := some { d8 with renderId := scene.renderId }
                 drawWrapper := { dw1 with
                   wasPreviouslyReady := true
                   wasPreviouslyUsingInstances := some useInstances } }
        events := ev }

/-- `BackgroundMaterial.isReadyForSubMesh` (`src/unnamed/part_000` lines
722-1038) as a pure transition on the submesh state, with an event record
of the dirty blocks run and the compile requests issued. The fast paths,
the dirty-partition refreshes, the early `return false`s, the compile
request under `defines.isDirty` and the final readiness bookkeeping mirror
the source; the `PushMaterial._isReadyForSubMesh` cached check and the
external Prepare* helpers are the spec-modelled definitions above. -/
def isReadyForSubMesh (m : BackgroundMaterialState) (scene : SceneState)
    (mesh : MeshInputs) (sub : SubMeshState) (useInstances : Bool) : ReadyResult :=
  let dw := sub.drawWrapper
  if dw.effect.isSome && m.isFrozen && dw.wasPreviouslyReady &&
      (dw.wasPreviouslyUsingInstances == some useInstances) then
    { ready := true, sub := sub, events := { exit := .frozenFastPath } }
  else
    let d0 := sub.materialDefines.getD newBackgroundMaterialDefines
    let sub1 : SubMeshState := { sub with materialDefines := some d0 }
    if !m.checkReadyOnEveryCall && dw.effect.isSome &&
        d0.renderId == scene.renderId then
      { ready := true, sub := sub1, events := { exit := .cachedReady } }
    else
      let d := prepareDefinesForLights scene m d0
      let d := { d with needNormals := true }
      let d := prepareDefinesForMultiview scene d
      let evTex := d.areTexturesDirty
      match texturesBlock m scene d with
      | .error (isRefl, dErr) =>
        { ready := false
          sub := { sub1 with materialDefines := some dErr }
          events := { texturesRecomputed := evTex
                      exit := if isRefl then .reflectionNotReady else .diffuseNotReady } }
      | .ok d1 =>
        let evLights := d1.areLightsDirty
        let d2 := lightsDirtyBlock m d1
        let evIp := d2.areImageProcessingDirty && m.imageProcessing.isSome
        match imageProcessingBlock m d2 with
        | .error dErr =>
          { ready := false
            sub := { sub1 with materialDefines := some dErr }
            events := { texturesRecomputed := evTex, lightsRecomputed := evLights
                        ipRecomputed := evIp, exit := .imageProcessingNotReady } }
        | .ok d3 => finishReady m scene mesh dw useInstances evTex evLights evIp d3

/-! ## bindForSubMesh (src lines 1132-1268)

Only the calls on the material's uniform buffer are traced (the
`updateFloat*/updateMatrix/updateColor4` uniform re-uploads, the
`setTexture` sampler bindings, `bindToEffect` and the final buffer flush);
the world matrix, bones, lights, fog, clip-plane and eye-position bindings
go through the effect object, not the uniform buffer, and are outside the
claims' vocabulary. -/

/-- One call on the material's uniform buffer. -/
inductive UboCall where
  | updateFloat : String → UboCall
  | updateFloat2 : String → UboCall
  | updateFloat3 : String → UboCall
  | updateFloat4 : String → UboCall
  | updateMatrix : String → UboCall
  | updateColor4 : String → UboCall
  | setTexture : String → UboCall
  | bindToEffect : UboCall
  | bufferUpdate : UboCall
  deriving DecidableEq

/-- Whether a traced call is a uniform re-upload
(`updateFloat/updateFloat2/updateFloat3/updateFloat4/updateMatrix/updateColor4`). -/
def UboCall.isUniformUpload : UboCall → Bool
  | .updateFloat _ => true
  | .updateFloat2 _ => true
  | .updateFloat3 _ => true
  | .updateFloat4 _ => true
  | .updateMatrix _ => true
  | .updateColor4 _ => true
  | _ => false

/-- Whether a traced call is a texture sampler binding. -/
def UboCall.isSetTexture : UboCall → Bool
  | .setTexture _ => true
  | _ => false

/-- Modelled from the spec: `PushMaterial._mustRebind` (not in src)
"decides mustRebind from: scene/material/mesh render-id mismatches since
last bind, or an explicit force-rebind flag set when backend resources
were recreated". -/
def mustRebindDecision (renderIdMismatch forceRebindFlag : Bool) : Bool :=
  renderIdMismatch || forceRebindFlag

/-- The engine/buffer-side inputs of one `bindForSubMesh` call. -/
structure BindInputs where
  mustRebind : Bool
  useUbo : Bool
  isSync : Bool
  forceRebindOnNextCall : Bool
  texturesEnabled : Bool
  diffuseTextureEnabled : Bool
  reflectionTextureEnabled : Bool
  needToAlwaysBindUniformBuffers : Bool
  deriving DecidableEq

/-- `BackgroundMaterial.bindForSubMesh` (`src/unnamed/part_000` lines
1132-1268) as the trace of uniform-buffer calls it issues. Mirrors the
source: nothing if the submesh has no defines or no effect; under
`mustRebind` the buffer is bound and — unless the frozen/synchronized
fast path applies — the texture-info, shadow/alpha/point-size and primary
colour uniforms are re-uploaded; `fFovMultiplier` and the texture sampler
bindings (plus the fresnel and ground-projection uniforms) sit inside the
`mustRebind` branch as well; without `mustRebind` only the
always-bind-buffers quirk re-binds the buffer; the final `update()` flush
always runs. -/
def bindForSubMesh (m : BackgroundMaterialState) (bi : BindInputs)
    (defines : Option BackgroundMaterialDefines) (hasEffect : Bool) :
    List UboCall :=
  match defines with
  | none => []
  | some d =>
    if !hasEffect then []
    else
      (if bi.mustRebind then
        [UboCall.bindToEffect] ++
        (if !bi.useUbo || !m.isFrozen || !bi.isSync || bi.forceRebindOnNextCall then
          (if bi.texturesEnabled then
            (match m.diffuseTexture with
              | some _ =>
                if bi.diffuseTextureEnabled then
                  [UboCall.updateFloat2 "vDiffuseInfos", UboCall.updateMatrix "diffuseMatrix"]
                else []
              | none => []) ++
            (match m.reflectionTexture with
              | some _ =>
                if bi.reflectionTextureEnabled then
                  [UboCall.updateMatrix "reflectionMatrix",
                   UboCall.updateFloat2 "vReflectionInfos",
                   UboCall.updateFloat3 "vReflectionMicrosurfaceInfos"]
                else []
              | none => [])
          else []) ++
          (if decide (m.shadowLevel > 0) then [UboCall.updateFloat "shadowLevel"] else []) ++
          [UboCall.updateFloat "alpha"] ++
          (if m.pointsCloud then [UboCall.updateFloat "pointSize"] else []) ++
          (if d.values.USEHIGHLIGHTANDSHADOWCOLORS then
            [UboCall.updateColor4 "vPrimaryColor", UboCall.updateColor4 "vPrimaryColorShadow"]
          else [UboCall.updateColor4 "vPrimaryColor"])
        else []) ++
        [UboCall.updateFloat "fFovMultiplier"] ++
        (if bi.texturesEnabled then
          (match m.diffuseTexture with
            | some _ =>
              if bi.diffuseTextureEnabled then [UboCall.setTexture "diffuseSampler"] else []
            | none => []) ++
          (match m.reflectionTexture with
            | some _ =>
              if bi.reflectionTextureEnabled then
                (if d.values.REFLECTIONBLUR && d.values.TEXTURELODSUPPORT then
                  [UboCall.setTexture "reflectionSampler"]
                else if !d.values.REFLECTIONBLUR then
                  [UboCall.setTexture "reflectionSampler"]
                else
                  [UboCall.setTexture "reflectionSampler",
                   UboCall.setTexture "reflectionSamplerLow",
                   UboCall.setTexture "reflectionSamplerHigh"]) ++
                (if d.values.REFLECTIONFRESNEL then
                  [UboCall.updateFloat3 "vBackgroundCenter", UboCall.updateFloat4 "vReflectionControl"]
                else [])
              else []
            | none => []) ++
          (if d.values.PROJECTED_GROUND then
            [UboCall.updateFloat2 "projectedGroundInfos"]
          else [])
        else [])
      else if bi.needToAlwaysBindUniformBuffers then [UboCall.bindToEffect]
      else []) ++
      [UboCall.bufferUpdate]

/-! ## Claim-side definitions -/

/-- The ten reflection-submode defines named by the claims, as a list. -/
def submodes (v : BackgroundDefineValues) : List Bool :=
  [v.REFLECTIONMAP_EXPLICIT, v.REFLECTIONMAP_PLANAR, v.REFLECTIONMAP_PROJECTION,
   v.REFLECTIONMAP_SKYBOX, v.REFLECTIONMAP_SPHERICAL, v.REFLECTIONMAP_EQUIRECTANGULAR,
   v.REFLECTIONMAP_EQUIRECTANGULAR_FIXED, v.REFLECTIONMAP_MIRROREDEQUIRECTANGULAR_FIXED,
   v.REFLECTIONMAP_CUBIC, v.INVERTCUBICMAP]

/-- The five partition dirty flags of a define set, bundled. -/
def partitionFlags (d : BackgroundMaterialDefines) :
    Bool × Bool × Bool × Bool × Bool :=
  (d.areTexturesDirty, d.areLightsDirty, d.areMiscDirty,
   d.areImageProcessingDirty, d.areAttributesDirty)

/-- Claim-side definition, from the spec's words: the reflection-submode
configuration dictated by the current reflection texture alone — starting
from the all-false defaults, raise the inverted-cubic flag and the define
of the texture's coordinates mode; with no active reflection texture every
submode define is at its default (false). The claim asserts the submode
defines of a recomputed key "reflect only the current reflection texture's
configuration", i.e. coincide with this. -/
def specSubmodes (rt : Option TextureState) (reflectionEnabled : Bool) :
    List Bool :=
  match rt with
  | some t =>
    if reflectionEnabled then
      submodes (reflectionSubmodeSwitch t.coordinatesMode
        (if t.coordinatesMode == INVCUBIC_MODE then { INVERTCUBICMAP := true } else {}))
    else submodes {}
  | none => submodes {}

/-- The priority at which an item was registered in a fallback list (the
first registration, if any). -/
def fbRank (l : List (Nat × FallbackItem)) (x : FallbackItem) : Option Nat :=
  (l.find? (fun p => p.2 == x)).map Prod.fst

/-- Whether `a`'s registered priority is no later than `b`'s (vacuously
true when either is absent). -/
def rankLeB (l : List (Nat × FallbackItem)) (a b : FallbackItem) : Bool :=
  match fbRank l a, fbRank l b with
  | some ra, some rb => ra ≤ rb
  | _, _ => true

/-- Claim C4 as stated, on a built fallback list: the features are
disabled in the order fog → point-size → multiview → shadow-casting
lights, read generously as non-decreasing priorities along that order
(ascending priority number = disabled first). -/
def claimC4orderB (l : List (Nat × FallbackItem)) : Bool :=
  rankLeB l .fog .pointsize && rankLeB l .pointsize .multiview &&
    rankLeB l .multiview (.light 1)

/-- Claim C5 as stated, on a bind trace: zero uniform re-uploads but the
diffuse and reflection sampler bindings still issued. -/
def claimC5holds (trace : List UboCall) : Bool :=
  (trace.filter UboCall.isUniformUpload).isEmpty &&
  trace.contains (UboCall.setTexture "diffuseSampler") &&
  trace.contains (UboCall.setTexture "reflectionSampler")

/-! ## Concrete fixtures for witnesses and counterexamples -/

/-- A loaded texture with the given coordinates mode and all flags off. -/
def texReady (mode : Nat) : TextureState :=
  { isReadyOrNotBlocking := true
    hasAlpha := false
    gammaSpace := false
    isRGBD := false
    lodLevelInAlpha := false
    isCube := false
    invertZ := false
    coordinatesMode := mode
    directUV := 0 }

/-- A texture that still reports not ready. -/
def texNotReady : TextureState := { texReady 0 with isReadyOrNotBlocking := false }

/-- A background material with the constructor defaults of the class. -/
def baseMaterial : BackgroundMaterialState :=
  { isFrozen := false
    checkReadyOnEveryCall := false
    alpha := 1
    alphaMode := 2
    shadowOnly := false
    useRGBColor := true
    enableNoise := false
    opacityFresnel := true
    reflectionFresnel := false
    reflectionFalloffDistance := 0
    reflectionBlur := 0
    diffuseTexture := none
    reflectionTexture := none
    primaryColorShadowLevel := 0
    primaryColorHighlightLevel := 0
    maxSimultaneousLights := 4
    enableGroundProjection := false
    useEquirectangularFOV := false
    switchToBGR := false
    useLogarithmicDepth := false
    pointsCloud := false
    fogEnabled := true
    imageProcessing := none
    shadowLevel := 0 }

/-- A plain scene: textures enabled, no lights, synchronous compiles. -/
def baseScene : SceneState :=
  { texturesEnabled := true
    diffuseTextureEnabled := true
    reflectionTextureEnabled := true
    capsTextureLOD := false
    useRightHandedSystem := false
    renderId := 1
    multiview := false
    lights := []
    fogActive := false
    newEffectIsReady := true }

/-- A plain mesh with normals and no UV sets or bones. -/
def baseMesh : MeshInputs :=
  { hasNormals := true
    hasUV1 := false
    hasUV2 := false
    nonUniformScaling := false
    applyFog := true
    alphaTest := false
    numBoneInfluencers := 0
    bonesPerMesh := 0 }

/-- A submesh that has never been rendered. -/
def freshSub : SubMeshState :=
  { materialDefines := none
    drawWrapper :=
      { effect := none
        wasPreviouslyReady := false
        wasPreviouslyUsingInstances := none
        forceRebindOnNextCall := false } }

/-- The material of the first C1 frame: a planar-mode reflection texture. -/
def mC1planar : BackgroundMaterialState :=
  { baseMaterial with reflectionTexture := some (texReady PLANAR_MODE) }

/-- The material of the second C1 frame: the reflection texture replaced
by a spherical-mode one (the setter marks the textures partition dirty). -/
def mC1spherical : BackgroundMaterialState :=
  { baseMaterial with reflectionTexture := some (texReady SPHERICAL_MODE) }

/-- The first C1 call: first render of a fresh submesh. -/
def rC1first : ReadyResult := isReadyForSubMesh mC1planar baseScene baseMesh freshSub false

/-- The submesh before the second C1 call: the texture swap marked the
textures partition dirty on its define set. -/
def subC1second : SubMeshState :=
  { rC1first.sub with materialDefines := rC1first.sub.materialDefines.map markTexturesDirty }

/-- The second C1 call, one frame later. -/
def rC1second : ReadyResult :=
  isReadyForSubMesh mC1spherical { baseScene with renderId := 2 } baseMesh subC1second false

/-- The C2 material: a diffuse texture that is not yet loaded. -/
def mC2 : BackgroundMaterialState :=
  { baseMaterial with diffuseTexture := some texNotReady }

/-- The C2 scene: the engine supports texture LOD. -/
def sceneC2 : SceneState := { baseScene with capsTextureLOD := true }

/-- The C2 submesh: fresh defines already allocated, everything dirty,
`TEXTURELODSUPPORT` still false. -/
def subC2 : SubMeshState :=
  { freshSub with materialDefines := some newBackgroundMaterialDefines }

/-- The C2 call. -/
def rC2 : ReadyResult := isReadyForSubMesh mC2 sceneC2 baseMesh subC2 false

/-- Define values with fog, point size and multiview all needed. -/
def vC4 : BackgroundDefineValues := { FOG := true, POINTSIZE := true, MULTIVIEW := true }

/-- The C5 second-bind inputs: no render-id mismatch and no force-rebind
flag (so `mustRebind` decides false), a synchronized persistent uniform
buffer, textures enabled. -/
def biC5 : BindInputs :=
  { mustRebind := mustRebindDecision false false
    useUbo := true
    isSync := true
    forceRebindOnNextCall := false
    texturesEnabled := true
    diffuseTextureEnabled := true
    reflectionTextureEnabled := true
    needToAlwaysBindUniformBuffers := false }

/-- The C5 material: frozen, with both a diffuse and a reflection
texture. -/
def mC5 : BackgroundMaterialState :=
  { baseMaterial with
    isFrozen := true
    diffuseTexture := some (texReady 0)
    reflectionTexture := some (texReady CUBIC_MODE) }

/-- A frozen variant of the base material. -/
def mFrozen : BackgroundMaterialState := { baseMaterial with isFrozen := true }

/-- A submesh whose draw wrapper holds an effect and was previously
marked ready without instancing. -/
def subPrev : SubMeshState :=
  { materialDefines := some newBackgroundMaterialDefines
    drawWrapper :=
      { effect := some { ready := true, key := {} }
        wasPreviouslyReady := true
        wasPreviouslyUsingInstances := some false
        forceRebindOnNextCall := false } }

/-- `vC4` with two active lights. -/
def vC4lights : BackgroundDefineValues := { vC4 with lights := [true, true] }

/-- The C7 material: highlight/shadow scaling in use (non-RGB colour mode
with a nonzero highlight level). -/
def mC7 : BackgroundMaterialState :=
  { baseMaterial with useRGBColor := false, primaryColorHighlightLevel := 1 }

/-- A submesh whose define set is fully processed and clean. -/
def subC6 : SubMeshState :=
  { freshSub with materialDefines := some (markAsProcessed newBackgroundMaterialDefines) }

theorem ipcInv_init : IpcInv initIpcState := by
  constructor
  · exact Or.inl rfl
  · intro o h; simp [initIpcState] at h

theorem ipcInv_attach (st : IpcState) (cfg : Option Nat) (sceneCfg : Nat)
    (h : IpcInv st) : IpcInv (attachImageProcessingConfiguration st cfg sceneCfg) := by
  obtain ⟨hregs, hfresh⟩ := h
  unfold attachImageProcessingConfiguration
  split
  · exact ⟨hregs, hfresh⟩
  · refine ⟨?_, ?_⟩
    · right
      refine ⟨cfg.getD sceneCfg, st.nextId, rfl, rfl, ?_⟩
      show (match st.config, st.observer with
        | some c, some o => removeRegistration st.regs c o
        | _, _ => st.regs) ++ [(cfg.getD sceneCfg, st.nextId)] = _
      have hempty : (match st.config, st.observer with
          | some c, some o => removeRegistration st.regs c o
          | _, _ => st.regs) = [] := by
        rcases hregs with h0 | ⟨c', o', hc', ho', hr⟩
        · rcases st.config with _ | c <;> rcases st.observer with _ | o <;>
            simp [h0, removeRegistration]
        · rw [hc', ho', hr]
          simp [removeRegistration]
      rw [hempty]
      rfl
    · intro o h'
      show o < st.nextId + 1
      have : st.nextId = o := by
        have := h'
        simp only [Option.some.injEq] at this
        omega
      omega

theorem ipcInv_dispose (st : IpcState) (h : IpcInv st) : IpcInv (disposeIpc st) := by
  obtain ⟨hregs, hfresh⟩ := h
  unfold disposeIpc
  rcases hc : st.config with _ | c <;> rcases ho : st.observer with _ | o <;>
    simp only [hc, ho]
  · exact ⟨hregs, hfresh⟩
  · exact ⟨hregs, hfresh⟩
  · exact ⟨hregs, hfresh⟩
  · refine ⟨?_, ?_⟩
    · rcases hregs with h0 | ⟨c', o', hc', ho', hr⟩
      · left; simp [h0, removeRegistration]
      · rw [hc'] at hc; rw [ho'] at ho
        cases hc; cases ho
        left; simp [hr, removeRegistration]
    · intro o' h'
      simp only at h'
      exact hfresh o' (ho ▸ h')

theorem ipcInv_step (st : IpcState) (op : IpcOp) (h : IpcInv st) :
    IpcInv (op.run st) := by
  cases op with
  | attach cfg sceneCfg => exact ipcInv_attach st cfg sceneCfg h
  | dispose => exact ipcInv_dispose st h

theorem ipcInv_runOps (ops : List IpcOp) : IpcInv (runIpcOps ops) := by
  have main : ∀ (l : List IpcOp) (st : IpcState), IpcInv st →
      IpcInv (l.foldl IpcOp.run st) := by
    intro l
    induction l with
    | nil => intro st h; exact h
    | cons op rest ih =>
      intro st h
      exact ih _ (ipcInv_step st op h)
  exact main ops initIpcState ipcInv_init

/-! ## Stage lemmas: what each pipeline stage can and cannot touch -/

theorem markAsProcessed_values (d : BackgroundMaterialDefines) :
    (markAsProcessed d).values = d.values := rfl

theorem prepLights_flags (s : SceneState) (m : BackgroundMaterialState)
    (d : BackgroundMaterialDefines) :
    partitionFlags (prepareDefinesForLights s m d) = partitionFlags d ∧
    (prepareDefinesForLights s m d).isDirtyFlag = d.isDirtyFlag := by
  unfold prepareDefinesForLights
  split <;> exact ⟨rfl, rfl⟩

theorem multiview_flags (s : SceneState) (d : BackgroundMaterialDefines) :
    partitionFlags (prepareDefinesForMultiview s d) = partitionFlags d ∧
    (d.isDirtyFlag = true → (prepareDefinesForMultiview s d).isDirtyFlag = true) := by
  unfold prepareDefinesForMultiview markAsUnprocessed
  split
  · exact ⟨rfl, fun h => h⟩
  · exact ⟨rfl, fun _ => rfl⟩

theorem diffuseBlock_error_eq (m : BackgroundMaterialState) (s : SceneState)
    (d e : BackgroundMaterialDefines) (h : diffuseBlock m s d = .error e) : e = d := by
  unfold diffuseBlock at h
  split at h
  · split at h
    · split at h
      · cases h; rfl
      · simp at h
    · simp at h
  · simp at h

theorem diffuseBlock_ok_flags (m : BackgroundMaterialState) (s : SceneState)
    (d d' : BackgroundMaterialDefines) (h : diffuseBlock m s d = .ok d') :
    partitionFlags d' = partitionFlags d ∧ d'.isDirtyFlag = d.isDirtyFlag := by
  unfold diffuseBlock prepareDefinesForMergedUV at h
  split at h
  · split at h
    · split at h
      · simp at h
      · cases h; exact ⟨rfl, rfl⟩
    · cases h; exact ⟨rfl, rfl⟩
  · cases h; exact ⟨rfl, rfl⟩

theorem reflectionBlock_error_eq (m : BackgroundMaterialState) (s : SceneState)
    (d e : BackgroundMaterialDefines) (h : reflectionBlock m s d = .error e) : e = d := by
  unfold reflectionBlock at h
  split at h
  · split at h
    · split at h
      · cases h; rfl
      · simp at h
    · simp [reflectionReset] at h
  · simp [reflectionReset] at h

theorem reflectionBlock_ok_flags (m : BackgroundMaterialState) (s : SceneState)
    (d d' : BackgroundMaterialDefines) (h : reflectionBlock m s d = .ok d') :
    partitionFlags d' = partitionFlags d ∧ d'.isDirtyFlag = d.isDirtyFlag := by
  unfold reflectionBlock at h
  split at h
  · split at h
    · split at h
      · simp at h
      · simp only [] at h
        cases h
        exact ⟨rfl, rfl⟩
    · cases h; exact ⟨rfl, rfl⟩
  · cases h; exact ⟨rfl, rfl⟩

theorem texturesTail_flags (m : BackgroundMaterialState)
    (d : BackgroundMaterialDefines) :
    partitionFlags (texturesTail m d) = partitionFlags d ∧
    (texturesTail m d).isDirtyFlag = d.isDirtyFlag :=
  ⟨rfl, rfl⟩

theorem lodApply_flags (s : SceneState) (d : BackgroundMaterialDefines) :
    partitionFlags (lodApply s d) = partitionFlags d ∧
    (lodApply s d).isDirtyFlag = d.isDirtyFlag := by
  unfold lodApply
  split <;> exact ⟨rfl, rfl⟩

theorem texturesCore_error_flags (m : BackgroundMaterialState) (s : SceneState)
    (d : BackgroundMaterialDefines) (p : Bool × BackgroundMaterialDefines)
    (h : texturesCore m s d = .error p) :
    partitionFlags p.2 = partitionFlags d ∧ p.2.isDirtyFlag = d.isDirtyFlag := by
  unfold texturesCore at h
  split at h
  case _ dE heq =>
    cases h
    have h1 := diffuseBlock_error_eq _ _ _ _ heq
    subst h1
    exact ⟨rfl, rfl⟩
  case _ d1 heq =>
    split at h
    case _ dE heq2 =>
      cases h
      have h1 := reflectionBlock_error_eq _ _ _ _ heq2
      subst h1
      exact diffuseBlock_ok_flags _ _ _ _ heq
    case _ => simp at h

theorem texturesCore_ok_flags (m : BackgroundMaterialState) (s : SceneState)
    (d d' : BackgroundMaterialDefines) (h : texturesCore m s d = .ok d') :
    partitionFlags d' = partitionFlags d ∧ d'.isDirtyFlag = d.isDirtyFlag := by
  unfold texturesCore at h
  split at h
  case _ dE heq => simp at h
  case _ d1 heq =>
    split at h
    case _ dE heq2 => simp at h
    case _ d2 heq2 =>
      cases h
      have h1 := diffuseBlock_ok_flags _ _ _ _ heq
      have h2 := reflectionBlock_ok_flags _ _ _ _ heq2
      exact ⟨h2.1.trans h1.1, h2.2.trans h1.2⟩

theorem texturesBlock_error_flags (m : BackgroundMaterialState) (s : SceneState)
    (d : BackgroundMaterialDefines) (p : Bool × BackgroundMaterialDefines)
    (h : texturesBlock m s d = .error p) :
    partitionFlags p.2 = partitionFlags d ∧ p.2.isDirtyFlag = d.isDirtyFlag := by
  unfold texturesBlock at h
  split at h
  · split at h
    · have h1 := texturesCore_error_flags _ _ _ _ h
      have h2 := lodApply_flags s { d with needUVs := false }
      exact ⟨h1.1.trans h2.1, h1.2.trans h2.2⟩
    · simp at h
  · simp at h

theorem texturesBlock_ok_flags (m : BackgroundMaterialState) (s : SceneState)
    (d d' : BackgroundMaterialDefines) (h : texturesBlock m s d = .ok d') :
    partitionFlags d' = partitionFlags d ∧ d'.isDirtyFlag = d.isDirtyFlag := by
  unfold texturesBlock at h
  split at h
  · split at h
    · have h1 := texturesCore_ok_flags _ _ _ _ h
      have h2 := lodApply_flags s { d with needUVs := false }
      exact ⟨h1.1.trans h2.1, h1.2.trans h2.2⟩
    · cases h
      exact ⟨rfl, rfl⟩
  · cases h
    exact ⟨rfl, rfl⟩

theorem lightsDirtyBlock_flags (m : BackgroundMaterialState)
    (d : BackgroundMaterialDefines) :
    partitionFlags (lightsDirtyBlock m d) = partitionFlags d ∧
    (lightsDirtyBlock m d).isDirtyFlag = d.isDirtyFlag := by
  unfold lightsDirtyBlock
  split <;> exact ⟨rfl, rfl⟩

theorem ipBlock_error_eq (m : BackgroundMaterialState)
    (d e : BackgroundMaterialDefines) (h : imageProcessingBlock m d = .error e) :
    e = d := by
  unfold imageProcessingBlock at h
  split at h
  · split at h
    · split at h
      · cases h; rfl
      · simp at h
    · simp at h
  · simp at h

theorem ipBlock_ok_cases (m : BackgroundMaterialState)
    (d d' : BackgroundMaterialDefines) (h : imageProcessingBlock m d = .ok d') :
    d' = d ∨ ∃ ip, d' = ipPrepareDefines ip d := by
  unfold imageProcessingBlock at h
  split at h
  · split at h
    · split at h
      · simp at h
      · cases h; exact Or.inr ⟨_, rfl⟩
    · cases h; exact Or.inl rfl
  · cases h; exact Or.inl rfl

/-! ### Preservation of USEHIGHLIGHTANDSHADOWCOLORS after the lights block -/

theorem ipPrepare_uh (ip : IpConfigState) (d : BackgroundMaterialDefines) :
    (ipPrepareDefines ip d).values.USEHIGHLIGHTANDSHADOWCOLORS =
      d.values.USEHIGHLIGHTANDSHADOWCOLORS := rfl

theorem miscDirtyBlock_uh (m : BackgroundMaterialState)
    (d : BackgroundMaterialDefines) :
    (miscDirtyBlock m d).values.USEHIGHLIGHTANDSHADOWCOLORS =
      d.values.USEHIGHLIGHTANDSHADOWCOLORS := by
  unfold miscDirtyBlock
  split
  · split <;> rfl
  · rfl

theorem miscPrepare_uh (m : BackgroundMaterialState) (s : SceneState)
    (mesh : MeshInputs) (d : BackgroundMaterialDefines) :
    (prepareDefinesForMisc m s mesh d).values.USEHIGHLIGHTANDSHADOWCOLORS =
      d.values.USEHIGHLIGHTANDSHADOWCOLORS := by
  unfold prepareDefinesForMisc
  split <;> rfl

theorem frameBound_uh (u : Bool) (d : BackgroundMaterialDefines) :
    (prepareDefinesForFrameBoundValues u d).values.USEHIGHLIGHTANDSHADOWCOLORS =
      d.values.USEHIGHLIGHTANDSHADOWCOLORS := by
  unfold prepareDefinesForFrameBoundValues markAsUnprocessed
  split <;> rfl

theorem attributes_uh (mesh : MeshInputs) (d : BackgroundMaterialDefines) :
    (prepareDefinesForAttributes mesh d).values.USEHIGHLIGHTANDSHADOWCOLORS =
      d.values.USEHIGHLIGHTANDSHADOWCOLORS := by
  unfold prepareDefinesForAttributes
  split <;> rfl

theorem lightsDirtyBlock_uh (m : BackgroundMaterialState)
    (d : BackgroundMaterialDefines) (h : d.areLightsDirty = true) :
    (lightsDirtyBlock m d).values.USEHIGHLIGHTANDSHADOWCOLORS =
      (!m.useRGBColor && (decide (m.primaryColorShadowLevel ≠ 0) ||
        decide (m.primaryColorHighlightLevel ≠ 0))) := by
  unfold lightsDirtyBlock
  rw [if_pos h]

/-! ### Preservation of the reflection submodes after the textures block -/

theorem lightsDirtyBlock_submodes (m : BackgroundMaterialState)
    (d : BackgroundMaterialDefines) :
    submodes (lightsDirtyBlock m d).values = submodes d.values ∧
    (lightsDirtyBlock m d).values.REFLECTIONMAP_3D = d.values.REFLECTIONMAP_3D := by
  unfold lightsDirtyBlock
  split <;> exact ⟨rfl, rfl⟩

theorem ipPrepare_submodes (ip : IpConfigState) (d : BackgroundMaterialDefines) :
    submodes (ipPrepareDefines ip d).values = submodes d.values ∧
    (ipPrepareDefines ip d).values.REFLECTIONMAP_3D = d.values.REFLECTIONMAP_3D :=
  ⟨rfl, rfl⟩

theorem miscDirtyBlock_submodes (m : BackgroundMaterialState)
    (d : BackgroundMaterialDefines) (h3d : d.values.REFLECTIONMAP_3D = false) :
    submodes (miscDirtyBlock m d).values = submodes d.values := by
  unfold miscDirtyBlock
  split
  · split
    · next hcond => rw [h3d] at hcond; simp at hcond
    · rfl
  · rfl

theorem miscPrepare_submodes (m : BackgroundMaterialState) (s : SceneState)
    (mesh : MeshInputs) (d : BackgroundMaterialDefines) :
    submodes (prepareDefinesForMisc m s mesh d).values = submodes d.values ∧
    (prepareDefinesForMisc m s mesh d).values.REFLECTIONMAP_3D =
      d.values.REFLECTIONMAP_3D := by
  unfold prepareDefinesForMisc
  split <;> exact ⟨rfl, rfl⟩

theorem frameBound_submodes (u : Bool) (d : BackgroundMaterialDefines) :
    submodes (prepareDefinesForFrameBoundValues u d).values = submodes d.values ∧
    (prepareDefinesForFrameBoundValues u d).values.REFLECTIONMAP_3D =
      d.values.REFLECTIONMAP_3D := by
  unfold prepareDefinesForFrameBoundValues markAsUnprocessed
  split <;> exact ⟨rfl, rfl⟩

theorem attributes_submodes (mesh : MeshInputs) (d : BackgroundMaterialDefines) :
    submodes (prepareDefinesForAttributes mesh d).values = submodes d.values ∧
    (prepareDefinesForAttributes mesh d).values.REFLECTIONMAP_3D =
      d.values.REFLECTIONMAP_3D := by
  unfold prepareDefinesForAttributes
  split <;> exact ⟨rfl, rfl⟩

theorem reflectionReset_submodes (d : BackgroundMaterialDefines) :
    submodes (reflectionReset d).values = List.replicate 10 false ∧
    (reflectionReset d).values.REFLECTIONMAP_3D = false := by
  exact ⟨rfl, rfl⟩

theorem diffuseBlock_ok_submodes (m : BackgroundMaterialState) (s : SceneState)
    (d d' : BackgroundMaterialDefines) (h : diffuseBlock m s d = .ok d') :
    submodes d'.values = submodes d.values ∧
    d'.values.REFLECTIONMAP_3D = d.values.REFLECTIONMAP_3D := by
  unfold diffuseBlock prepareDefinesForMergedUV at h
  split at h
  · split at h
    · split at h
      · simp at h
      · cases h; exact ⟨rfl, rfl⟩
    · cases h; exact ⟨rfl, rfl⟩
  · cases h; exact ⟨rfl, rfl⟩

theorem texturesTail_submodes (m : BackgroundMaterialState)
    (d : BackgroundMaterialDefines) :
    submodes (texturesTail m d).values = submodes d.values ∧
    (texturesTail m d).values.REFLECTIONMAP_3D = d.values.REFLECTIONMAP_3D :=
  ⟨rfl, rfl⟩

/-- With no active reflection texture, the reflection part takes the reset
branch. -/
theorem reflectionBlock_inactive (m : BackgroundMaterialState) (s : SceneState)
    (d : BackgroundMaterialDefines)
    (h : m.reflectionTexture = none ∨ s.reflectionTextureEnabled = false) :
    reflectionBlock m s d = .ok (reflectionReset d) := by
  unfold reflectionBlock
  rcases hrt : m.reflectionTexture with _ | rt
  · rfl
  · rcases h with h | h
    · rw [hrt] at h; cases h
    · rw [h]; rfl

theorem ipBlock_ok_submodes (m : BackgroundMaterialState)
    (d d' : BackgroundMaterialDefines) (h : imageProcessingBlock m d = .ok d') :
    submodes d'.values = submodes d.values ∧
    d'.values.REFLECTIONMAP_3D = d.values.REFLECTIONMAP_3D := by
  rcases ipBlock_ok_cases _ _ _ h with h1 | ⟨ip, h1⟩
  · rw [h1]; exact ⟨rfl, rfl⟩
  · rw [h1]; exact ⟨rfl, rfl⟩

/-- When the textures partition is recomputed with textures enabled and no
active reflection texture, a successful textures block ends with every
submode define false (the reset branch) and the 3D flag cleared. -/
theorem texturesBlock_ok_submodes_off (m : BackgroundMaterialState) (s : SceneState)
    (d d1 : BackgroundMaterialDefines)
    (hdirty : d.areTexturesDirty = true) (hen : s.texturesEnabled = true)
    (hOff : m.reflectionTexture = none ∨ s.reflectionTextureEnabled = false)
    (h : texturesBlock m s d = .ok d1) :
    submodes d1.values = List.replicate 10 false ∧
    d1.values.REFLECTIONMAP_3D = false := by
  unfold texturesBlock at h
  rw [if_pos hdirty, if_pos hen] at h
  unfold texturesCore at h
  split at h
  case _ dE heqd => simp at h
  case _ dD heqd =>
    split at h
    case _ dE heqr =>
      rw [reflectionBlock_inactive _ _ _ hOff] at heqr
      cases heqr
    case _ dR heqr =>
      rw [reflectionBlock_inactive _ _ _ hOff] at heqr
      cases heqr
      cases h
      constructor
      · rw [(texturesTail_submodes _ _).1, (reflectionReset_submodes _).1]
      · rw [(texturesTail_submodes _ _).2, (reflectionReset_submodes _).2]

/-! ### Clean partitions leave the stages inert -/

theorem prepLights_clean (s : SceneState) (m : BackgroundMaterialState)
    (d : BackgroundMaterialDefines) (h : d.areLightsDirty = false) :
    prepareDefinesForLights s m d = d := by
  unfold prepareDefinesForLights
  simp [h]

theorem multiview_id (s : SceneState) (d : BackgroundMaterialDefines)
    (h : d.values.MULTIVIEW = s.multiview) :
    prepareDefinesForMultiview s d = d := by
  unfold prepareDefinesForMultiview
  simp [h]

theorem texturesBlock_clean (m : BackgroundMaterialState) (s : SceneState)
    (d : BackgroundMaterialDefines) (h : d.areTexturesDirty = false) :
    texturesBlock m s d = .ok d := by
  unfold texturesBlock
  simp [h]

theorem lightsDirtyBlock_clean (m : BackgroundMaterialState)
    (d : BackgroundMaterialDefines) (h : d.areLightsDirty = false) :
    lightsDirtyBlock m d = d := by
  unfold lightsDirtyBlock
  simp [h]

theorem ipBlock_clean (m : BackgroundMaterialState)
    (d : BackgroundMaterialDefines) (h : d.areImageProcessingDirty = false) :
    imageProcessingBlock m d = .ok d := by
  unfold imageProcessingBlock
  simp [h]

theorem miscDirtyBlock_clean (m : BackgroundMaterialState)
    (d : BackgroundMaterialDefines) (h : d.areMiscDirty = false) :
    miscDirtyBlock m d = d := by
  unfold miscDirtyBlock
  simp [h]

theorem miscPrepare_clean (m : BackgroundMaterialState) (s : SceneState)
    (mesh : MeshInputs) (d : BackgroundMaterialDefines)
    (h : d.areMiscDirty = false) :
    prepareDefinesForMisc m s mesh d = d := by
  unfold prepareDefinesForMisc
  simp [h]

theorem frameBound_id (u : Bool) (d : BackgroundMaterialDefines)
    (h : d.values.INSTANCES = u) :
    prepareDefinesForFrameBoundValues u d = d := by
  unfold prepareDefinesForFrameBoundValues
  simp [h]

theorem attributes_clean (mesh : MeshInputs) (d : BackgroundMaterialDefines)
    (h : d.areAttributesDirty = false) :
    prepareDefinesForAttributes mesh d = d := by
  unfold prepareDefinesForAttributes
  simp [h]

/-! ### The finishReady tail -/

theorem finishReady_stored_values (m : BackgroundMaterialState) (scene : SceneState)
    (mesh : MeshInputs) (dw : DrawWrapperState) (useInstances : Bool)
    (evT evL evI : Bool) (d3 : BackgroundMaterialDefines) :
    ∃ d, (finishReady m scene mesh dw useInstances evT evL evI d3).sub.materialDefines =
        some d ∧
      d.values = (prepareDefinesForAttributes mesh
        (prepareDefinesForFrameBoundValues useInstances
          (prepareDefinesForMisc m scene mesh (miscDirtyBlock m d3)))).values := by
  unfold finishReady
  simp only []
  split
  · exact ⟨_, rfl, by split <;> rfl⟩
  · split
    · exact ⟨_, rfl, by split <;> rfl⟩
    · exact ⟨_, rfl, by split <;> rfl⟩

theorem finishReady_events_fields (m : BackgroundMaterialState) (scene : SceneState)
    (mesh : MeshInputs) (dw : DrawWrapperState) (useInstances : Bool)
    (evT evL evI : Bool) (d3 : BackgroundMaterialDefines) :
    (finishReady m scene mesh dw useInstances evT evL evI d3).events.texturesRecomputed = evT ∧
    (finishReady m scene mesh dw useInstances evT evL evI d3).events.lightsRecomputed = evL := by
  unfold finishReady
  simp only []
  split
  · exact ⟨rfl, rfl⟩
  · split <;> exact ⟨rfl, rfl⟩

theorem finishReady_uh (m : BackgroundMaterialState) (scene : SceneState)
    (mesh : MeshInputs) (dw : DrawWrapperState) (useInstances : Bool)
    (evT evL evI : Bool) (d3 : BackgroundMaterialDefines) :
    ∃ d, (finishReady m scene mesh dw useInstances evT evL evI d3).sub.materialDefines =
        some d ∧
      d.values.USEHIGHLIGHTANDSHADOWCOLORS = d3.values.USEHIGHLIGHTANDSHADOWCOLORS := by
  obtain ⟨d, hd, hv⟩ :=
    finishReady_stored_values m scene mesh dw useInstances evT evL evI d3
  refine ⟨d, hd, ?_⟩
  rw [hv, attributes_uh, frameBound_uh, miscPrepare_uh, miscDirtyBlock_uh]

theorem finishReady_submodes (m : BackgroundMaterialState) (scene : SceneState)
    (mesh : MeshInputs) (dw : DrawWrapperState) (useInstances : Bool)
    (evT evL evI : Bool) (d3 : BackgroundMaterialDefines)
    (h3 : d3.values.REFLECTIONMAP_3D = false) :
    ∃ d, (finishReady m scene mesh dw useInstances evT evL evI d3).sub.materialDefines =
        some d ∧
      submodes d.values = submodes d3.values := by
  obtain ⟨d, hd, hv⟩ :=
    finishReady_stored_values m scene mesh dw useInstances evT evL evI d3
  refine ⟨d, hd, ?_⟩
  rw [hv, (attributes_submodes _ _).1, (frameBound_submodes _ _).1,
    (miscPrepare_submodes _ _ _ _).1, miscDirtyBlock_submodes _ _ h3]

theorem finishReady_clean (m : BackgroundMaterialState) (scene : SceneState)
    (mesh : MeshInputs) (dw : DrawWrapperState) (useInstances : Bool)
    (evT evL evI : Bool) (d3 : BackgroundMaterialDefines)
    (hm : d3.areMiscDirty = false) (ha : d3.areAttributesDirty = false)
    (hi : d3.values.INSTANCES = useInstances) (hd : d3.isDirtyFlag = false) :
    (finishReady m scene mesh dw useInstances evT evL evI d3).events.compiles = [] ∧
    ∃ d, (finishReady m scene mesh dw useInstances evT evL evI d3).sub.materialDefines =
        some d ∧ d.values = d3.values := by
  have e4 := miscDirtyBlock_clean m d3 hm
  have e5 := miscPrepare_clean m scene mesh d3 hm
  have e6 := frameBound_id useInstances d3 hi
  have e7 := attributes_clean mesh d3 ha
  unfold finishReady
  simp only [e4, e5, e6, e7, hd, Bool.false_eq_true, if_false]
  split
  · exact ⟨rfl, _, rfl, rfl⟩
  · split
    · exact ⟨rfl, _, rfl, rfl⟩
    · exact ⟨rfl, _, rfl, rfl⟩

/-! ## Claim C3: the frozen fast path -/

/-- C3: for every BackgroundMaterial and submesh, if the material is
frozen, the submesh's draw wrapper already holds an effect, the submesh
was previously marked ready and the previous call used the same
useInstances value, then `isReadyForSubMesh` returns true immediately —
the submesh state is untouched, no dirty partition is recomputed and no
compile request is issued (the result carries no recompute events and an
empty compile list). -/
theorem frozenFastPath_ready (m : BackgroundMaterialState) (scene : SceneState)
    (mesh : MeshInputs) (sub : SubMeshState) (useInstances : Bool)
    (hEff : sub.drawWrapper.effect.isSome = true)
    (hFrozen : m.isFrozen = true)
    (hPrev : sub.drawWrapper.wasPreviouslyReady = true)
    (hInst : sub.drawWrapper.wasPreviouslyUsingInstances = some useInstances) :
    isReadyForSubMesh m scene mesh sub useInstances =
      { ready := true, sub := sub, events := { exit := ReadyExit.frozenFastPath } } := by
  unfold isReadyForSubMesh
  simp [hEff, hFrozen, hPrev, hInst]

/-- Witness for C3 at a concrete frozen material and previously-ready
submesh. -/
theorem frozenFastPath_ready_witness :
    isReadyForSubMesh mFrozen baseScene baseMesh subPrev false =
      { ready := true, sub := subPrev, events := { exit := ReadyExit.frozenFastPath } } :=
  frozenFastPath_ready mFrozen baseScene baseMesh subPrev false
    (by decide) (by decide) (by decide) (by decide)

/-! ## Claim C9: the fovMultiplier accessor -/

/-- C9: a NaN assigned to `fovMultiplier` is replaced by the safe default
1.0; a finite value is clamped to [0.0, 2.0]; and whatever the input
(NaN, infinity or finite), the stored value is a finite number in
[0.0, 2.0] — so the getter never returns NaN or an out-of-range value. -/
theorem fovMultiplier_clamped (v : JsNum) :
    (v = JsNum.nan → setFovMultiplier v = JsNum.num 1) ∧
    (∀ r : ℚ, v = JsNum.num r → setFovMultiplier v = JsNum.num (max 0 (min 2 r))) ∧
    ∃ q : ℚ, setFovMultiplier v = JsNum.num q ∧ 0 ≤ q ∧ q ≤ 2 := by
  refine ⟨?_, ?_, ?_⟩
  · intro h
    subst h
    show jsMax (.num 0) (jsMin (.num 2) (.num 1)) = JsNum.num 1
    simp [jsMin, jsMax]
  · intro r h
    subst h
    show jsMax (.num 0) (jsMin (.num 2) (.num r)) = JsNum.num (max 0 (min 2 r))
    simp [jsMin, jsMax]
  · cases v with
    | nan =>
      refine ⟨1, ?_, by norm_num, by norm_num⟩
      show jsMax (.num 0) (jsMin (.num 2) (.num 1)) = JsNum.num 1
      simp [jsMin, jsMax]
    | posInf =>
      refine ⟨2, ?_, by norm_num, by norm_num⟩
      show jsMax (.num 0) (jsMin (.num 2) .posInf) = JsNum.num 2
      simp [jsMin, jsMax]
    | negInf =>
      refine ⟨0, ?_, by norm_num, by norm_num⟩
      show jsMax (.num 0) (jsMin (.num 2) .negInf) = JsNum.num 0
      simp [jsMin, jsMax]
    | num r =>
      refine ⟨max 0 (min 2 r), ?_, le_max_left 0 _, ?_⟩
      · show jsMax (.num 0) (jsMin (.num 2) (.num r)) = JsNum.num (max 0 (min 2 r))
        simp [jsMin, jsMax]
      · exact max_le (by norm_num) (min_le_left 2 r)

/-- Witness for C9: the NaN input stores 1.0 and an oversized input is
clamped to 2.0. -/
theorem fovMultiplier_clamped_witness :
    setFovMultiplier JsNum.nan = JsNum.num 1 ∧
    setFovMultiplier (JsNum.num 5) = JsNum.num 2 := by
  constructor
  · exact (fovMultiplier_clamped JsNum.nan).1 rfl
  · have h := (fovMultiplier_clamped (JsNum.num 5)).2.1 5 rfl
    rw [h]
    norm_num

/-! ## Claim C10: needAlphaBlending -/

/-- C10: `needAlphaBlending` returns true exactly when the material's
alpha is below 1, or a diffuse texture with alpha is set, or `shadowOnly`
is enabled — in particular a fully opaque material with `shadowOnly` still
requires alpha blending. -/
theorem needAlphaBlending_iff (m : BackgroundMaterialState) :
    needAlphaBlending m = true ↔
      m.alpha < 1 ∨ (∃ t, m.diffuseTexture = some t ∧ t.hasAlpha = true) ∨
        m.shadowOnly = true := by
  unfold needAlphaBlending
  rcases h : m.diffuseTexture with _ | t <;> simp [h, or_assoc]

/-! ## Claim C4: the fallback priority order -/

/-- Counterexample to C4 as stated: with fog, point size and multiview all
needed, the source registers FOG at priority 0, POINTSIZE at priority 1
and MULTIVIEW at priority 0, so the backend disables multiview together
with fog, before point size — the disable order is fog, multiview,
point-size, not the claimed fog → point-size → multiview (the ordering
predicate fails even read generously with ties allowed). -/
theorem fallback_order_counterexample :
    claimC4orderB (buildFallbacks vC4) = false ∧
    disableOrder (buildFallbacks vC4) =
      [FallbackItem.fog, FallbackItem.multiview, FallbackItem.pointsize] := by
  decide

/-- C4 amended: the fallback list built by `isReadyForSubMesh` registers
FOG at priority 0, POINTSIZE at priority 1 and MULTIVIEW at priority 0
(each exactly when the corresponding define is set), and the
shadow-casting lights at priority equal to their index (from index 1 up,
so lights are disabled from the least impactful index first). With
ascending priority disabled first, the disable order is fog and multiview,
then point-size, then the remaining lights — not fog → point-size →
multiview. -/
theorem fallback_priorities (v : BackgroundDefineValues) :
    ((0, FallbackItem.fog) ∈ buildFallbacks v ↔ v.FOG = true) ∧
    ((1, FallbackItem.pointsize) ∈ buildFallbacks v ↔ v.POINTSIZE = true) ∧
    ((0, FallbackItem.multiview) ∈ buildFallbacks v ↔ v.MULTIVIEW = true) ∧
    (∀ r, (r, FallbackItem.fog) ∈ buildFallbacks v → r = 0) ∧
    (∀ r, (r, FallbackItem.pointsize) ∈ buildFallbacks v → r = 1) ∧
    (∀ r, (r, FallbackItem.multiview) ∈ buildFallbacks v → r = 0) ∧
    (∀ r i, (r, FallbackItem.light i) ∈ buildFallbacks v →
      r = i ∧ 1 ≤ i ∧ i < v.lights.length) ∧
    (∀ i, 1 ≤ i → i < v.lights.length →
      (i, FallbackItem.light i) ∈ buildFallbacks v) := by
  unfold buildFallbacks handleFallbacksForShadows
  refine ⟨?_, ?_, ?_, ?_, ?_, ?_, ?_, ?_⟩
  · split_ifs <;>
      simp_all [List.mem_append, List.mem_filterMap, List.mem_range,
        Option.ite_none_right_eq_some]
  · split_ifs <;>
      simp_all [List.mem_append, List.mem_filterMap, List.mem_range,
        Option.ite_none_right_eq_some]
  · split_ifs <;>
      simp_all [List.mem_append, List.mem_filterMap, List.mem_range,
        Option.ite_none_right_eq_some]
  · intro r
    split_ifs <;>
      simp_all [List.mem_append, List.mem_filterMap, List.mem_range,
        Option.ite_none_right_eq_some]
  · intro r
    split_ifs <;>
      simp_all [List.mem_append, List.mem_filterMap, List.mem_range,
        Option.ite_none_right_eq_some]
  · intro r
    split_ifs <;>
      simp_all [List.mem_append, List.mem_filterMap, List.mem_range,
        Option.ite_none_right_eq_some]
  · intro r i h
    simp only [List.mem_append, List.mem_filterMap, List.mem_range,
      Option.ite_none_right_eq_some] at h
    rcases h with ((h | h) | h) | h
    · split_ifs at h <;> simp_all
    · split_ifs at h <;> simp_all
    · split_ifs at h <;> simp_all
    · obtain ⟨a, ha, hpos, heq⟩ := h
      simp only [Option.some.injEq, Prod.mk.injEq, FallbackItem.light.injEq] at heq
      obtain ⟨h1, h2⟩ := heq
      exact ⟨by omega, by omega, by omega⟩
  · intro i h1 h2
    simp only [List.mem_append, List.mem_filterMap, List.mem_range,
      Option.ite_none_right_eq_some]
    right
    exact ⟨i, h2, by omega, rfl⟩

/-- Witness for the amended C4: at a configuration needing fog, point
size, multiview and two lights, the registered priorities are as the
amended claim states. -/
theorem fallback_priorities_witness :
    (0, FallbackItem.fog) ∈ buildFallbacks vC4lights ∧
    (1, FallbackItem.pointsize) ∈ buildFallbacks vC4lights ∧
    (0, FallbackItem.multiview) ∈ buildFallbacks vC4lights ∧
    (1, FallbackItem.light 1) ∈ buildFallbacks vC4lights := by
  have h := fallback_priorities vC4lights
  exact ⟨h.1.mpr rfl, h.2.1.mpr rfl, h.2.2.1.mpr rfl,
    h.2.2.2.2.2.2.2 1 (by norm_num) (by decide)⟩

/-! ## Claim C5: the frozen bind fast path -/

/-- Counterexample to C5 as stated: a frozen material with both textures
set, on a second bind with no render-id mismatch and no force-rebind flag
(`mustRebind` decides false): the whole `mustRebind` block — including the
`setTexture` sampler bindings — is skipped, so the trace is just the final
buffer flush: zero uniform re-uploads, but zero texture bindings as well,
refuting "still issues the texture sampler bindings". -/
theorem bind_fastpath_counterexample :
    bindForSubMesh mC5 biC5 (some newBackgroundMaterialDefines) true =
      [UboCall.bufferUpdate] ∧
    claimC5holds (bindForSubMesh mC5 biC5 (some newBackgroundMaterialDefines) true) =
      false := by
  decide

/-- C5 amended: on a bind whose `mustRebind` decision is false, the call
performs zero uniform re-uploads to the uniform buffer and also issues
zero texture sampler bindings — texture binding happens only inside the
`mustRebind` path. -/
theorem bind_without_rebind_no_buffer_calls (m : BackgroundMaterialState)
    (bi : BindInputs) (defines : Option BackgroundMaterialDefines)
    (hasEffect : Bool) (h : bi.mustRebind = false) :
    (bindForSubMesh m bi defines hasEffect).filter UboCall.isUniformUpload = [] ∧
    (bindForSubMesh m bi defines hasEffect).filter UboCall.isSetTexture = [] := by
  unfold bindForSubMesh
  rcases defines with _ | d
  · simp
  · cases hasEffect <;> cases hbi : bi.needToAlwaysBindUniformBuffers <;>
      simp [h, hbi, UboCall.isUniformUpload, UboCall.isSetTexture]

/-- Witness for the amended C5 at the concrete frozen second bind. -/
theorem bind_without_rebind_witness :
    (bindForSubMesh mC5 biC5 (some newBackgroundMaterialDefines) true).filter
      UboCall.isUniformUpload = [] ∧
    (bindForSubMesh mC5 biC5 (some newBackgroundMaterialDefines) true).filter
      UboCall.isSetTexture = [] :=
  bind_without_rebind_no_buffer_calls mC5 biC5 (some newBackgroundMaterialDefines)
    true (by decide)

/-! ## Claim C1: stale reflection-submode defines -/

/-- Counterexample to C1 as stated: frame 1 renders with a planar-mode
reflection texture (REFLECTIONMAP_PLANAR becomes true); the texture is
then replaced by a spherical-mode one, which marks the textures partition
dirty; frame 2 recomputes the textures partition, yet the serialized key
ends with both REFLECTIONMAP_SPHERICAL and REFLECTIONMAP_PLANAR true —
the stale planar flag of the previous texture leaks into the new key,
while the configuration dictated by the current texture alone has the
planar flag false. -/
theorem stale_submode_counterexample :
    (rC1second.sub.materialDefines.map fun d =>
      (d.values.REFLECTIONMAP_PLANAR, d.values.REFLECTIONMAP_SPHERICAL)) =
      some (true, true) ∧
    rC1second.events.texturesRecomputed = true ∧
    rC1second.ready = true ∧
    specSubmodes mC1spherical.reflectionTexture true =
      [false, false, false, false, true, false, false, false, false, false] := by
  decide

/-! ## Claim C2: the early not-ready return mutates the key -/

/-- Counterexample to C2 as stated: on an engine with texture-LOD support
and a diffuse texture that is not yet loaded, the call returns false at
the diffuse readiness check — but `TEXTURELODSUPPORT`, a define that
participates in the key, was already flipped from false to true before
the bail-out, so a key-participating define differs from its value before
the call. -/
theorem early_return_mutation_counterexample :
    rC2.ready = false ∧
    rC2.events.exit = ReadyExit.diffuseNotReady ∧
    (rC2.sub.materialDefines.map fun d => d.values.TEXTURELODSUPPORT) = some true ∧
    (subC2.materialDefines.map fun d => d.values.TEXTURELODSUPPORT) = some false := by
  decide

/-- C2 amended: a call that bails out on a readiness failure (an unready
diffuse or reflection texture, or an unready image-processing
configuration) returns false for this frame, issues no compile request,
and leaves the defines unprocessed: every partition dirty flag keeps its
value from before the call, and a define set that was marked dirty stays
marked dirty — so the aborted partitions are recomputed on the next call.
(Define values, however, may have been partially updated before the
bail-out — see the counterexample.) -/
theorem early_exit_no_compile (m : BackgroundMaterialState) (scene : SceneState)
    (mesh : MeshInputs) (sub : SubMeshState) (useInstances : Bool)
    (d0 : BackgroundMaterialDefines) (hsub : sub.materialDefines = some d0)
    (hexit :
      (isReadyForSubMesh m scene mesh sub useInstances).events.exit =
        ReadyExit.diffuseNotReady ∨
      (isReadyForSubMesh m scene mesh sub useInstances).events.exit =
        ReadyExit.reflectionNotReady ∨
      (isReadyForSubMesh m scene mesh sub useInstances).events.exit =
        ReadyExit.imageProcessingNotReady) :
    (isReadyForSubMesh m scene mesh sub useInstances).ready = false ∧
    (isReadyForSubMesh m scene mesh sub useInstances).events.compiles = [] ∧
    ∃ d, (isReadyForSubMesh m scene mesh sub useInstances).sub.materialDefines = some d ∧
      partitionFlags d = partitionFlags d0 ∧
      (d0.isDirtyFlag = true → d.isDirtyFlag = true) := by
  generalize hR : isReadyForSubMesh m scene mesh sub useInstances = R at hexit ⊢
  unfold isReadyForSubMesh at hR
  simp only [hsub, Option.getD_some] at hR
  have hPl := prepLights_flags scene m d0
  have hMv := multiview_flags scene
    { prepareDefinesForLights scene m d0 with needNormals := true }
  split at hR
  · subst hR; simp at hexit
  · split at hR
    · subst hR; simp at hexit
    · split at hR
      case _ isRefl dErr heq =>
        subst hR
        have hTex := texturesBlock_error_flags _ _ _ _ heq
        refine ⟨rfl, rfl, dErr, rfl, ?_, ?_⟩
        · exact hTex.1.trans (hMv.1.trans hPl.1)
        · intro h0
          exact hTex.2.trans (hMv.2 (hPl.2.trans h0))
      case _ d1 heq =>
        split at hR
        case _ dErr heq2 =>
          subst hR
          have hIp := ipBlock_error_eq _ _ _ heq2
          subst hIp
          have hL := lightsDirtyBlock_flags m d1
          have hTex := texturesBlock_ok_flags _ _ _ _ heq
          refine ⟨rfl, rfl, _, rfl, ?_, ?_⟩
          · exact hL.1.trans (hTex.1.trans (hMv.1.trans hPl.1))
          · intro h0
            exact hL.2.trans (hTex.2.trans (hMv.2 (hPl.2.trans h0)))
        case _ d3 heq2 =>
          exfalso
          have hx : R.events.exit = ReadyExit.effectNotReady ∨
              R.events.exit = ReadyExit.completed := by
            rw [← hR]
            unfold finishReady
            simp only []
            split
            · left; rfl
            · split
              · left; rfl
              · right; rfl
          rcases hexit with h | h | h <;> rcases hx with hx | hx <;>
            rw [h] at hx <;> cases hx

/-- Witness for the amended C2 at the concrete unready-diffuse call: it
returns false, issues no compile, and keeps every partition dirty. -/
theorem early_exit_no_compile_witness :
    rC2.ready = false ∧ rC2.events.compiles = [] ∧
    ∃ d, rC2.sub.materialDefines = some d ∧
      partitionFlags d = partitionFlags newBackgroundMaterialDefines ∧
      (newBackgroundMaterialDefines.isDirtyFlag = true → d.isDirtyFlag = true) :=
  early_exit_no_compile mC2 sceneC2 baseMesh subC2 false
    newBackgroundMaterialDefines rfl (Or.inl (by decide))

/-! ## Claim C7: the highlight/shadow colours define -/

/-- C7: after any `isReadyForSubMesh` call that recomputes the lights
partition, the submesh's define set satisfies: if
`primaryColorShadowLevel` and `primaryColorHighlightLevel` are both 0 then
`USEHIGHLIGHTANDSHADOWCOLORS` is false, and if either level is nonzero
while `useRGBColor` is false then it is true. -/
theorem highlight_shadow_colors (m : BackgroundMaterialState) (scene : SceneState)
    (mesh : MeshInputs) (sub : SubMeshState) (useInstances : Bool)
    (hlr : (isReadyForSubMesh m scene mesh sub useInstances).events.lightsRecomputed = true) :
    ∃ d, (isReadyForSubMesh m scene mesh sub useInstances).sub.materialDefines = some d ∧
      (m.primaryColorShadowLevel = 0 ∧ m.primaryColorHighlightLevel = 0 →
        d.values.USEHIGHLIGHTANDSHADOWCOLORS = false) ∧
      (m.useRGBColor = false →
        (m.primaryColorShadowLevel ≠ 0 ∨ m.primaryColorHighlightLevel ≠ 0) →
        d.values.USEHIGHLIGHTANDSHADOWCOLORS = true) := by
  suffices h : ∃ d,
      (isReadyForSubMesh m scene mesh sub useInstances).sub.materialDefines = some d ∧
      d.values.USEHIGHLIGHTANDSHADOWCOLORS =
        (!m.useRGBColor && (decide (m.primaryColorShadowLevel ≠ 0) ||
          decide (m.primaryColorHighlightLevel ≠ 0))) by
    obtain ⟨d, hd, hv⟩ := h
    refine ⟨d, hd, ?_, ?_⟩
    · rintro ⟨h1, h2⟩
      rw [hv]
      simp [h1, h2]
    · intro h1 h2
      rw [hv]
      rcases h2 with h2 | h2 <;> simp [h1, h2]
  generalize hR : isReadyForSubMesh m scene mesh sub useInstances = R at hlr ⊢
  unfold isReadyForSubMesh at hR
  simp only [] at hR
  split at hR
  · subst hR; simp at hlr
  · split at hR
    · subst hR; simp at hlr
    · split at hR
      case _ isRefl dErr heq => subst hR; simp at hlr
      case _ d1 heq =>
        split at hR
        case _ dErr heq2 =>
          subst hR
          simp only [] at hlr
          have hIp := ipBlock_error_eq _ _ _ heq2
          subst hIp
          exact ⟨_, rfl, lightsDirtyBlock_uh m d1 hlr⟩
        case _ d3 heq2 =>
          have hlr1 : d1.areLightsDirty = true := by
            rw [← hR] at hlr
            rwa [(finishReady_events_fields _ _ _ _ _ _ _ _ _).2] at hlr
          have hUH3 : d3.values.USEHIGHLIGHTANDSHADOWCOLORS =
              (lightsDirtyBlock m d1).values.USEHIGHLIGHTANDSHADOWCOLORS := by
            rcases ipBlock_ok_cases _ _ _ heq2 with h | ⟨ip, h⟩
            · rw [h]
            · rw [h, ipPrepare_uh]
          obtain ⟨d, hd, hv⟩ := finishReady_uh m scene mesh sub.drawWrapper useInstances
            _ _ _ d3
          rw [← hR]
          exact ⟨d, hd, by rw [hv, hUH3, lightsDirtyBlock_uh m d1 hlr1]⟩

/-- Witness for C7: a material in non-RGB colour mode with highlight level
1 on a fresh submesh (the lights partition starts dirty). -/
theorem highlight_shadow_colors_witness :
    ∃ d, (isReadyForSubMesh mC7 baseScene baseMesh freshSub false).sub.materialDefines =
        some d ∧
      (mC7.primaryColorShadowLevel = 0 ∧ mC7.primaryColorHighlightLevel = 0 →
        d.values.USEHIGHLIGHTANDSHADOWCOLORS = false) ∧
      (mC7.useRGBColor = false →
        (mC7.primaryColorShadowLevel ≠ 0 ∨ mC7.primaryColorHighlightLevel ≠ 0) →
        d.values.USEHIGHLIGHTANDSHADOWCOLORS = true) :=
  highlight_shadow_colors mC7 baseScene baseMesh freshSub false (by decide)

/-! ## Claim C1 (amended): turning off reflection clears the submodes -/

/-- C1 amended: after any `isReadyForSubMesh` call that recomputes the
textures partition with scene textures enabled and no active reflection
texture (and that did not bail out on the diffuse texture), all ten
reflection-submode defines in the submesh's define set are false — the
reset branch clears them, and no later stage of the call re-raises one.
(When a reflection texture remains present, the counterexample shows the
submode define of a previous coordinates mode is not cleared.) -/
theorem reflection_off_clears_submodes (m : BackgroundMaterialState)
    (scene : SceneState) (mesh : MeshInputs) (sub : SubMeshState) (useInstances : Bool)
    (hTex : scene.texturesEnabled = true)
    (hOff : m.reflectionTexture = none ∨ scene.reflectionTextureEnabled = false)
    (hRan : (isReadyForSubMesh m scene mesh sub useInstances).events.texturesRecomputed = true)
    (hNoDiff : (isReadyForSubMesh m scene mesh sub useInstances).events.exit ≠
      ReadyExit.diffuseNotReady) :
    ∃ d, (isReadyForSubMesh m scene mesh sub useInstances).sub.materialDefines = some d ∧
      submodes d.values = List.replicate 10 false := by
  generalize hR : isReadyForSubMesh m scene mesh sub useInstances = R at hRan hNoDiff ⊢
  unfold isReadyForSubMesh at hR
  simp only [] at hR
  split at hR
  · subst hR; simp at hRan
  · split at hR
    · subst hR; simp at hRan
    · split at hR
      case _ isRefl dErr heq =>
        subst hR
        simp only [] at hRan
        exfalso
        unfold texturesBlock at heq
        rw [if_pos hRan, if_pos hTex] at heq
        unfold texturesCore at heq
        split at heq
        case _ dE heqd =>
          cases heq
          exact hNoDiff rfl
        case _ dD heqd =>
          split at heq
          case _ dE heqr =>
            rw [reflectionBlock_inactive _ _ _ hOff] at heqr
            cases heqr
          case _ => simp at heq
      case _ d1 heq =>
        split at hR
        case _ dErr heq2 =>
          subst hR
          simp only [] at hRan
          have hIp := ipBlock_error_eq _ _ _ heq2
          subst hIp
          have hsub1 := texturesBlock_ok_submodes_off _ _ _ _ hRan hTex hOff heq
          refine ⟨_, rfl, ?_⟩
          rw [(lightsDirtyBlock_submodes _ _).1, hsub1.1]
        case _ d3 heq2 =>
          rw [← hR] at hRan
          rw [(finishReady_events_fields _ _ _ _ _ _ _ _ _).1] at hRan
          have hsub1 := texturesBlock_ok_submodes_off _ _ _ _ hRan hTex hOff heq
          have hip := ipBlock_ok_submodes _ _ _ heq2
          have h3 : d3.values.REFLECTIONMAP_3D = false := by
            rw [hip.2, (lightsDirtyBlock_submodes _ _).2, hsub1.2]
          obtain ⟨d, hd, hv⟩ := finishReady_submodes m scene mesh sub.drawWrapper
            useInstances _ _ _ d3 h3
          rw [← hR]
          refine ⟨d, hd, ?_⟩
          rw [hv, hip.1, (lightsDirtyBlock_submodes _ _).1, hsub1.1]

/-- Witness for the amended C1: a material with no reflection texture on a
fresh submesh ends with every reflection-submode define false. -/
theorem reflection_off_clears_submodes_witness :
    ∃ d, (isReadyForSubMesh baseMaterial baseScene baseMesh freshSub false).sub.materialDefines =
        some d ∧
      submodes d.values = List.replicate 10 false :=
  reflection_off_clears_submodes baseMaterial baseScene baseMesh freshSub false
    rfl (Or.inl rfl) (by decide) (by decide)

/-! ## Claim C6: idempotence on clean, processed defines -/

/-- C6: when a submesh's define set is processed and every partition is
clean, and the frame-bound inputs are unchanged (the multiview flag and
the instancing mode already match), calling `isReadyForSubMesh` again
leaves the serialized define key unchanged (the stored define values are
exactly the previous ones) and issues no compile request to the engine. -/
theorem clean_defines_no_recompile (m : BackgroundMaterialState)
    (scene : SceneState) (mesh : MeshInputs) (sub : SubMeshState)
    (useInstances : Bool) (d0 : BackgroundMaterialDefines)
    (hsub : sub.materialDefines = some d0)
    (hT : d0.areTexturesDirty = false) (hL : d0.areLightsDirty = false)
    (hM : d0.areMiscDirty = false) (hI : d0.areImageProcessingDirty = false)
    (hA : d0.areAttributesDirty = false) (hD : d0.isDirtyFlag = false)
    (hMul : d0.values.MULTIVIEW = scene.multiview)
    (hInst : d0.values.INSTANCES = useInstances) :
    (isReadyForSubMesh m scene mesh sub useInstances).events.compiles = [] ∧
    ∃ d, (isReadyForSubMesh m scene mesh sub useInstances).sub.materialDefines = some d ∧
      d.values = d0.values := by
  unfold isReadyForSubMesh
  simp only []
  split
  · exact ⟨rfl, d0, hsub, rfl⟩
  · simp only [hsub, Option.getD_some]
    split
    · exact ⟨rfl, d0, rfl, rfl⟩
    · have e1 : prepareDefinesForLights scene m d0 = d0 := prepLights_clean _ _ _ hL
      have e2 : prepareDefinesForMultiview scene { d0 with needNormals := true } =
          { d0 with needNormals := true } := multiview_id _ _ hMul
      have e3 : texturesBlock m scene { d0 with needNormals := true } =
          .ok { d0 with needNormals := true } := texturesBlock_clean _ _ _ hT
      have e4 : lightsDirtyBlock m { d0 with needNormals := true } =
          { d0 with needNormals := true } := lightsDirtyBlock_clean _ _ hL
      have e5 : imageProcessingBlock m { d0 with needNormals := true } =
          .ok { d0 with needNormals := true } := ipBlock_clean _ _ hI
      simp only [e1, e2, e3, e4, e5]
      obtain ⟨hc, d, hd, hv⟩ := finishReady_clean m scene mesh sub.drawWrapper
        useInstances _ _ _ { d0 with needNormals := true } hM hA hInst hD
      exact ⟨hc, d, hd, hv⟩

/-- Witness for C6: a fully processed, clean define set on the base
material — the call issues no compile and keeps the key values. -/
theorem clean_defines_no_recompile_witness :
    (isReadyForSubMesh baseMaterial baseScene baseMesh subC6 false).events.compiles = [] ∧
    ∃ d, (isReadyForSubMesh baseMaterial baseScene baseMesh subC6 false).sub.materialDefines =
        some d ∧
      d.values = (markAsProcessed newBackgroundMaterialDefines).values :=
  clean_defines_no_recompile baseMaterial baseScene baseMesh subC6 false
    (markAsProcessed newBackgroundMaterialDefines) rfl rfl rfl rfl rfl rfl rfl rfl rfl

/-! ## Claim C8: at most one image-processing observer -/

/-- C8: throughout any sequence of `_attachImageProcessingConfiguration`
calls (constructor and setter, with the scene configuration for the null
case) and disposes, the material holds at most one registered observer on
at most one configuration, so no configuration can deliver duplicate
notifications to it; and attaching the configuration already in use
changes nothing. -/
theorem attach_single_observer (ops : List IpcOp) (sceneCfg : Nat) :
    (runIpcOps ops).regs.length ≤ 1 ∧
    (∀ c, (runIpcOps ops).config = some c →
      attachImageProcessingConfiguration (runIpcOps ops) (some c) sceneCfg =
        runIpcOps ops) := by
  obtain ⟨hregs, _⟩ := ipcInv_runOps ops
  constructor
  · rcases hregs with h0 | ⟨c, o, _, _, hr⟩
    · simp [h0]
    · simp [hr]
  · intro c hc
    unfold attachImageProcessingConfiguration
    simp [hc]

/-- Witness for C8 after a concrete attach sequence. -/
theorem attach_single_observer_witness :
    (runIpcOps [IpcOp.attach none 0]).regs.length ≤ 1 ∧
    attachImageProcessingConfiguration (runIpcOps [IpcOp.attach none 0]) (some 0) 0 =
      runIpcOps [IpcOp.attach none 0] := by
  have h := attach_single_observer [IpcOp.attach none 0] 0
  exact ⟨h.1, h.2 0 (by decide)⟩

end Background
